import Mathlib

/-!
Verification of the E.164 telephone number codec and area-code
configuration components (sources: e164_base.c, e164_base.h,
e164_types.c, e164_area_codes.c, e164_area_codes.h, e164.c).

Strings are modelled as `List Char` (C `char *` buffers, with the NUL
terminator implicit: the end of the list is the terminator).  Machine
integers are modelled as `Nat`/`Int`, with explicit `% 2 ^ w` where
32-bit wrap-around matters (the hash).  C code paths that call `exit`
(the debug-signal fatal paths) are modelled by `Option`: a `none`
result is the fatal trap, never a returned value.
-/

set_option maxRecDepth 10000
set_option linter.unusedVariables false

/-- The eight calling-code classification types of `E164Type`
(e164_base.h): four assigned types, three unassigned ones, and
`Invalid` for codes with no entry. -/
inductive E164Type where
  | GeographicArea
  | GlobalService
  | Network
  | GroupOfCountries
  | Reserved
  | SpareWithNote
  | SpareWithoutNote
  | Invalid
deriving DecidableEq, Repr

/-! Structure limits from the `E164StructureLimit` enum in e164_base.h. -/

def E164MaximumNumberOfDigits : Nat := 15
def E164PrefixStringLength : Nat := 1
def E164MaximumRawStringLength : Nat :=
  E164MaximumNumberOfDigits + E164PrefixStringLength
def E164MaximumStringLength : Nat := E164MaximumRawStringLength + 6
def E164MinimumStringLength : Nat := 3
def E164MaximumCountryCodeLength : Nat := 3
def E164GeographicAreaMinimumSubscriberNumberLength : Nat := 1
def E164GlobalServiceMinimumSubscriberNumberLength : Nat := 1
def E164NetworkMinimumSubscriberNumberLength : Nat := 2
def E164GroupOfCountriesMinimumSubscriberNumberLength : Nat := 2

def E164_MAX_COUNTRY_CODE_VALUE : Nat := 999
/-- The static calling-code classification table, transcribed entry by entry
from the const array e164TypeFor[1000] in e164_types.c (indices 0..999). -/
def e164TypeFor : List E164Type := [
    E164Type.Reserved, E164Type.GeographicArea, E164Type.Invalid, E164Type.Invalid, E164Type.Invalid,
    E164Type.Invalid, E164Type.Invalid, E164Type.GeographicArea, E164Type.Invalid, E164Type.Invalid,
    -- 10..19 
    E164Type.Invalid, E164Type.Invalid, E164Type.Invalid, E164Type.Invalid, E164Type.Invalid,
    E164Type.Invalid, E164Type.Invalid, E164Type.Invalid, E164Type.Invalid, E164Type.Invalid,
    -- 20..29 
    E164Type.GeographicArea, E164Type.Invalid, E164Type.Invalid, E164Type.Invalid, E164Type.Invalid,
    E164Type.Invalid, E164Type.Invalid, E164Type.GeographicArea, E164Type.Invalid, E164Type.Invalid,
    -- 30..39 
    E164Type.GeographicArea, E164Type.GeographicArea, E164Type.GeographicArea, E164Type.GeographicArea, E164Type.GeographicArea,
    E164Type.Invalid, E164Type.GeographicArea, E164Type.Invalid, E164Type.Invalid, E164Type.GeographicArea,
    -- 40..49 
    E164Type.GeographicArea, E164Type.GeographicArea, E164Type.Invalid, E164Type.GeographicArea, E164Type.GeographicArea,
    E164Type.GeographicArea, E164Type.GeographicArea, E164Type.GeographicArea, E164Type.GeographicArea, E164Type.GeographicArea,
    -- 50..59 
    E164Type.Invalid, E164Type.GeographicArea, E164Type.GeographicArea, E164Type.GeographicArea, E164Type.GeographicArea,
    E164Type.GeographicArea, E164Type.GeographicArea, E164Type.GeographicArea, E164Type.GeographicArea, E164Type.Invalid,
    -- 60..69 
    E164Type.GeographicArea, E164Type.GeographicArea, E164Type.GeographicArea, E164Type.GeographicArea, E164Type.GeographicArea,
    E164Type.GeographicArea, E164Type.GeographicArea, E164Type.Invalid, E164Type.Invalid, E164Type.Invalid,
    -- 70..79 
    E164Type.Invalid, E164Type.Invalid, E164Type.Invalid, E164Type.Invalid, E164Type.Invalid,
    E164Type.Invalid, E164Type.Invalid, E164Type.Invalid, E164Type.Invalid, E164Type.Invalid,
    -- 80..89 
    E164Type.Invalid, E164Type.GeographicArea, E164Type.GeographicArea, E164Type.Invalid, E164Type.GeographicArea,
    E164Type.Invalid, E164Type.GeographicArea, E164Type.Invalid, E164Type.Invalid, E164Type.Invalid,
    -- 90..99 
    E164Type.GeographicArea, E164Type.GeographicArea, E164Type.GeographicArea, E164Type.GeographicArea, E164Type.GeographicArea,
    E164Type.GeographicArea, E164Type.Invalid, E164Type.Invalid, E164Type.GeographicArea, E164Type.Invalid,
    -- 100..109 
    E164Type.Invalid, E164Type.Invalid, E164Type.Invalid, E164Type.Invalid, E164Type.Invalid,
    E164Type.Invalid, E164Type.Invalid, E164Type.Invalid, E164Type.Invalid, E164Type.Invalid,
    -- 110..119 
    E164Type.Invalid, E164Type.Invalid, E164Type.Invalid, E164Type.Invalid, E164Type.Invalid,
    E164Type.Invalid, E164Type.Invalid, E164Type.Invalid, E164Type.Invalid, E164Type.Invalid,
    -- 120..129 
    E164Type.Invalid, E164Type.Invalid, E164Type.Invalid, E164Type.Invalid, E164Type.Invalid,
    E164Type.Invalid, E164Type.Invalid, E164Type.Invalid, E164Type.Invalid, E164Type.Invalid,
    -- 130..139 
    E164Type.Invalid, E164Type.Invalid, E164Type.Invalid, E164Type.Invalid, E164Type.Invalid,
    E164Type.Invalid, E164Type.Invalid, E164Type.Invalid, E164Type.Invalid, E164Type.Invalid,
    -- 140..149 
    E164Type.Invalid, E164Type.Invalid, E164Type.Invalid, E164Type.Invalid, E164Type.Invalid,
    E164Type.Invalid, E164Type.Invalid, E164Type.Invalid, E164Type.Invalid, E164Type.Invalid,
    -- 150..159 
    E164Type.Invalid, E164Type.Invalid, E164Type.Invalid, E164Type.Invalid, E164Type.Invalid,
    E164Type.Invalid, E164Type.Invalid, E164Type.Invalid, E164Type.Invalid, E164Type.Invalid,
    -- 160..169 
    E164Type.Invalid, E164Type.Invalid, E164Type.Invalid, E164Type.Invalid, E164Type.Invalid,
    E164Type.Invalid, E164Type.Invalid, E164Type.Invalid, E164Type.Invalid, E164Type.Invalid,
    -- 170..179 
    E164Type.Invalid, E164Type.Invalid, E164Type.Invalid, E164Type.Invalid, E164Type.Invalid,
    E164Type.Invalid, E164Type.Invalid, E164Type.Invalid, E164Type.Invalid, E164Type.Invalid,
    -- 180..189 
    E164Type.Invalid, E164Type.Invalid, E164Type.Invalid, E164Type.Invalid, E164Type.Invalid,
    E164Type.Invalid, E164Type.Invalid, E164Type.Invalid, E164Type.Invalid, E164Type.Invalid,
    -- 190..199 
    E164Type.Invalid, E164Type.Invalid, E164Type.Invalid, E164Type.Invalid, E164Type.Invalid,
    E164Type.Invalid, E164Type.Invalid, E164Type.Invalid, E164Type.Invalid, E164Type.Invalid,

    -- 200..209 
    E164Type.Invalid, E164Type.Invalid, E164Type.Invalid, E164Type.Invalid, E164Type.Invalid,
    E164Type.Invalid, E164Type.Invalid, E164Type.Invalid, E164Type.Invalid, E164Type.Invalid,
    -- 210..219 
    E164Type.SpareWithoutNote, E164Type.SpareWithoutNote, E164Type.GeographicArea, E164Type.GeographicArea, E164Type.SpareWithoutNote,
    E164Type.SpareWithoutNote, E164Type.GeographicArea, E164Type.SpareWithoutNote, E164Type.GeographicArea, E164Type.SpareWithoutNote,
    -- 220..229 
    E164Type.GeographicArea, E164Type.GeographicArea, E164Type.GeographicArea, E164Type.GeographicArea, E164Type.GeographicArea,
    E164Type.GeographicArea, E164Type.GeographicArea, E164Type.GeographicArea, E164Type.GeographicArea, E164Type.GeographicArea,
    -- 230..239 
    E164Type.GeographicArea, E164Type.GeographicArea, E164Type.GeographicArea, E164Type.GeographicArea, E164Type.GeographicArea,
    E164Type.GeographicArea, E164Type.GeographicArea, E164Type.GeographicArea, E164Type.GeographicArea, E164Type.GeographicArea,
    -- 240..249 
    E164Type.GeographicArea, E164Type.GeographicArea, E164Type.GeographicArea, E164Type.GeographicArea, E164Type.GeographicArea,
    E164Type.GeographicArea, E164Type.GeographicArea, E164Type.GeographicArea, E164Type.GeographicArea, E164Type.GeographicArea,
    -- 250..259 
    E164Type.GeographicArea, E164Type.GeographicArea, E164Type.GeographicArea, E164Type.GeographicArea, E164Type.GeographicArea,
    E164Type.GeographicArea, E164Type.GeographicArea, E164Type.GeographicArea, E164Type.GeographicArea, E164Type.SpareWithoutNote,
    -- 260..269 
    E164Type.GeographicArea, E164Type.GeographicArea, E164Type.GeographicArea, E164Type.GeographicArea, E164Type.GeographicArea,
    E164Type.GeographicArea, E164Type.GeographicArea, E164Type.GeographicArea, E164Type.GeographicArea, E164Type.GeographicArea,
    -- 270..279 
    E164Type.Invalid, E164Type.Invalid, E164Type.Invalid, E164Type.Invalid, E164Type.Invalid,
    E164Type.Invalid, E164Type.Invalid, E164Type.Invalid, E164Type.Invalid, E164Type.Invalid,
    -- 280..289 
    E164Type.SpareWithNote, E164Type.SpareWithNote, E164Type.SpareWithNote, E164Type.SpareWithNote, E164Type.SpareWithNote,
    E164Type.SpareWithNote, E164Type.SpareWithNote, E164Type.SpareWithNote, E164Type.SpareWithNote, E164Type.SpareWithNote,
    -- 290..299 
    E164Type.GeographicArea, E164Type.GeographicArea, E164Type.SpareWithoutNote, E164Type.SpareWithoutNote, E164Type.SpareWithoutNote,
    E164Type.SpareWithoutNote, E164Type.SpareWithoutNote, E164Type.GeographicArea, E164Type.GeographicArea, E164Type.GeographicArea,

    -- 300..309 
    E164Type.Invalid, E164Type.Invalid, E164Type.Invalid, E164Type.Invalid, E164Type.Invalid,
    E164Type.Invalid, E164Type.Invalid, E164Type.Invalid, E164Type.Invalid, E164Type.Invalid,
    -- 310..319 
    E164Type.Invalid, E164Type.Invalid, E164Type.Invalid, E164Type.Invalid, E164Type.Invalid,
    E164Type.Invalid, E164Type.Invalid, E164Type.Invalid, E164Type.Invalid, E164Type.Invalid,
    -- 320..329 
    E164Type.Invalid, E164Type.Invalid, E164Type.Invalid, E164Type.Invalid, E164Type.Invalid,
    E164Type.Invalid, E164Type.Invalid, E164Type.Invalid, E164Type.Invalid, E164Type.Invalid,
    -- 330..339 
    E164Type.Invalid, E164Type.Invalid, E164Type.Invalid, E164Type.Invalid, E164Type.Invalid,
    E164Type.Invalid, E164Type.Invalid, E164Type.Invalid, E164Type.Invalid, E164Type.Invalid,
    -- 340..349 
    E164Type.Invalid, E164Type.Invalid, E164Type.Invalid, E164Type.Invalid, E164Type.Invalid,
    E164Type.Invalid, E164Type.Invalid, E164Type.Invalid, E164Type.Invalid, E164Type.Invalid,
    -- 350..359 
    E164Type.GeographicArea, E164Type.GeographicArea, E164Type.GeographicArea, E164Type.GeographicArea, E164Type.GeographicArea,
    E164Type.GeographicArea, E164Type.GeographicArea, E164Type.GeographicArea, E164Type.GeographicArea, E164Type.GeographicArea,
    -- 360..369 
    E164Type.Invalid, E164Type.Invalid, E164Type.Invalid, E164Type.Invalid, E164Type.Invalid,
    E164Type.Invalid, E164Type.Invalid, E164Type.Invalid, E164Type.Invalid, E164Type.Invalid,
    -- 370..379 
    E164Type.GeographicArea, E164Type.GeographicArea, E164Type.GeographicArea, E164Type.GeographicArea, E164Type.GeographicArea,
    E164Type.GeographicArea, E164Type.GeographicArea, E164Type.GeographicArea, E164Type.GeographicArea, E164Type.GeographicArea,
    -- 380..389 
    E164Type.GeographicArea, E164Type.GeographicArea, E164Type.GeographicArea, E164Type.SpareWithoutNote, E164Type.SpareWithoutNote,
    E164Type.GeographicArea, E164Type.GeographicArea, E164Type.GeographicArea, E164Type.GroupOfCountries, E164Type.GeographicArea,
    -- 390..399 
    E164Type.Invalid, E164Type.Invalid, E164Type.Invalid, E164Type.Invalid, E164Type.Invalid,
    E164Type.Invalid, E164Type.Invalid, E164Type.Invalid, E164Type.Invalid, E164Type.Invalid,

    -- 400..409 
    E164Type.Invalid, E164Type.Invalid, E164Type.Invalid, E164Type.Invalid, E164Type.Invalid,
    E164Type.Invalid, E164Type.Invalid, E164Type.Invalid, E164Type.Invalid, E164Type.Invalid,
    -- 410..419 
    E164Type.Invalid, E164Type.Invalid, E164Type.Invalid, E164Type.Invalid, E164Type.Invalid,
    E164Type.Invalid, E164Type.Invalid, E164Type.Invalid, E164Type.Invalid, E164Type.Invalid,
    -- 420..429 
    E164Type.GeographicArea, E164Type.GeographicArea, E164Type.SpareWithoutNote, E164Type.GeographicArea, E164Type.SpareWithoutNote,
    E164Type.SpareWithoutNote, E164Type.SpareWithoutNote, E164Type.SpareWithoutNote, E164Type.SpareWithoutNote, E164Type.SpareWithoutNote,
    -- 430..439 
    E164Type.Invalid, E164Type.Invalid, E164Type.Invalid, E164Type.Invalid, E164Type.Invalid,
    E164Type.Invalid, E164Type.Invalid, E164Type.Invalid, E164Type.Invalid, E164Type.Invalid,
    -- 440..449 
    E164Type.Invalid, E164Type.Invalid, E164Type.Invalid, E164Type.Invalid, E164Type.Invalid,
    E164Type.Invalid, E164Type.Invalid, E164Type.Invalid, E164Type.Invalid, E164Type.Invalid,
    -- 450..459 
    E164Type.Invalid, E164Type.Invalid, E164Type.Invalid, E164Type.Invalid, E164Type.Invalid,
    E164Type.Invalid, E164Type.Invalid, E164Type.Invalid, E164Type.Invalid, E164Type.Invalid,
    -- 460..469 
    E164Type.Invalid, E164Type.Invalid, E164Type.Invalid, E164Type.Invalid, E164Type.Invalid,
    E164Type.Invalid, E164Type.Invalid, E164Type.Invalid, E164Type.Invalid, E164Type.Invalid,
    -- 470..479 
    E164Type.Invalid, E164Type.Invalid, E164Type.Invalid, E164Type.Invalid, E164Type.Invalid,
    E164Type.Invalid, E164Type.Invalid, E164Type.Invalid, E164Type.Invalid, E164Type.Invalid,
    -- 480..489 
    E164Type.Invalid, E164Type.Invalid, E164Type.Invalid, E164Type.Invalid, E164Type.Invalid,
    E164Type.Invalid, E164Type.Invalid, E164Type.Invalid, E164Type.Invalid, E164Type.Invalid,
    -- 490..499 
    E164Type.Invalid, E164Type.Invalid, E164Type.Invalid, E164Type.Invalid, E164Type.Invalid,
    E164Type.Invalid, E164Type.Invalid, E164Type.Invalid, E164Type.Invalid, E164Type.Invalid,

    -- 500..509 
    E164Type.GeographicArea, E164Type.GeographicArea, E164Type.GeographicArea, E164Type.GeographicArea, E164Type.GeographicArea,
    E164Type.GeographicArea, E164Type.GeographicArea, E164Type.GeographicArea, E164Type.GeographicArea, E164Type.GeographicArea,
    -- 510..519 
    E164Type.Invalid, E164Type.Invalid, E164Type.Invalid, E164Type.Invalid, E164Type.Invalid,
    E164Type.Invalid, E164Type.Invalid, E164Type.Invalid, E164Type.Invalid, E164Type.Invalid,
    -- 520..529 
    E164Type.Invalid, E164Type.Invalid, E164Type.Invalid, E164Type.Invalid, E164Type.Invalid,
    E164Type.Invalid, E164Type.Invalid, E164Type.Invalid, E164Type.Invalid, E164Type.Invalid,
    -- 530..539 
    E164Type.Invalid, E164Type.Invalid, E164Type.Invalid, E164Type.Invalid, E164Type.Invalid,
    E164Type.Invalid, E164Type.Invalid, E164Type.Invalid, E164Type.Invalid, E164Type.Invalid,
    -- 540..549 
    E164Type.Invalid, E164Type.Invalid, E164Type.Invalid, E164Type.Invalid, E164Type.Invalid,
    E164Type.Invalid, E164Type.Invalid, E164Type.Invalid, E164Type.Invalid, E164Type.Invalid,
    -- 550..559 
    E164Type.Invalid, E164Type.Invalid, E164Type.Invalid, E164Type.Invalid, E164Type.Invalid,
    E164Type.Invalid, E164Type.Invalid, E164Type.Invalid, E164Type.Invalid, E164Type.Invalid,
    -- 560..569 
    E164Type.Invalid, E164Type.Invalid, E164Type.Invalid, E164Type.Invalid, E164Type.Invalid,
    E164Type.Invalid, E164Type.Invalid, E164Type.Invalid, E164Type.Invalid, E164Type.Invalid,
    -- 570..579 
    E164Type.Invalid, E164Type.Invalid, E164Type.Invalid, E164Type.Invalid, E164Type.Invalid,
    E164Type.Invalid, E164Type.Invalid, E164Type.Invalid, E164Type.Invalid, E164Type.Invalid,
    -- 580..589 
    E164Type.Invalid, E164Type.Invalid, E164Type.Invalid, E164Type.Invalid, E164Type.Invalid,
    E164Type.Invalid, E164Type.Invalid, E164Type.Invalid, E164Type.Invalid, E164Type.Invalid,
    -- 590..599 
    E164Type.GeographicArea, E164Type.GeographicArea, E164Type.GeographicArea, E164Type.GeographicArea, E164Type.GeographicArea,
    E164Type.GeographicArea, E164Type.GeographicArea, E164Type.GeographicArea, E164Type.GeographicArea, E164Type.GeographicArea,

    -- 600..609 
    E164Type.Invalid, E164Type.Invalid, E164Type.Invalid, E164Type.Invalid, E164Type.Invalid,
    E164Type.Invalid, E164Type.Invalid, E164Type.Invalid, E164Type.Invalid, E164Type.Invalid,
    -- 610..619 
    E164Type.Invalid, E164Type.Invalid, E164Type.Invalid, E164Type.Invalid, E164Type.Invalid,
    E164Type.Invalid, E164Type.Invalid, E164Type.Invalid, E164Type.Invalid, E164Type.Invalid,
    -- 620..629 
    E164Type.Invalid, E164Type.Invalid, E164Type.Invalid, E164Type.Invalid, E164Type.Invalid,
    E164Type.Invalid, E164Type.Invalid, E164Type.Invalid, E164Type.Invalid, E164Type.Invalid,
    -- 630..639 
    E164Type.Invalid, E164Type.Invalid, E164Type.Invalid, E164Type.Invalid, E164Type.Invalid,
    E164Type.Invalid, E164Type.Invalid, E164Type.Invalid, E164Type.Invalid, E164Type.Invalid,
    -- 640..649 
    E164Type.Invalid, E164Type.Invalid, E164Type.Invalid, E164Type.Invalid, E164Type.Invalid,
    E164Type.Invalid, E164Type.Invalid, E164Type.Invalid, E164Type.Invalid, E164Type.Invalid,
    -- 650..659 
    E164Type.Invalid, E164Type.Invalid, E164Type.Invalid, E164Type.Invalid, E164Type.Invalid,
    E164Type.Invalid, E164Type.Invalid, E164Type.Invalid, E164Type.Invalid, E164Type.Invalid,
    -- 660..669 
    E164Type.Invalid, E164Type.Invalid, E164Type.Invalid, E164Type.Invalid, E164Type.Invalid,
    E164Type.Invalid, E164Type.Invalid, E164Type.Invalid, E164Type.Invalid, E164Type.Invalid,
    -- 670..679 
    E164Type.GeographicArea, E164Type.SpareWithoutNote, E164Type.GeographicArea, E164Type.GeographicArea, E164Type.GeographicArea,
    E164Type.GeographicArea, E164Type.GeographicArea, E164Type.GeographicArea, E164Type.GeographicArea, E164Type.GeographicArea,
    -- 680..689 
    E164Type.GeographicArea, E164Type.GeographicArea, E164Type.GeographicArea, E164Type.GeographicArea, E164Type.SpareWithoutNote,
    E164Type.GeographicArea, E164Type.GeographicArea, E164Type.GeographicArea, E164Type.GeographicArea, E164Type.GeographicArea,
    -- 690..699 
    E164Type.GeographicArea, E164Type.GeographicArea, E164Type.GeographicArea, E164Type.SpareWithoutNote, E164Type.SpareWithoutNote,
    E164Type.SpareWithoutNote, E164Type.SpareWithoutNote, E164Type.SpareWithoutNote, E164Type.SpareWithoutNote, E164Type.SpareWithoutNote,

    -- 700..709 
    E164Type.Invalid, E164Type.Invalid, E164Type.Invalid, E164Type.Invalid, E164Type.Invalid,
    E164Type.Invalid, E164Type.Invalid, E164Type.Invalid, E164Type.Invalid, E164Type.Invalid,
    -- 710..719 
    E164Type.Invalid, E164Type.Invalid, E164Type.Invalid, E164Type.Invalid, E164Type.Invalid,
    E164Type.Invalid, E164Type.Invalid, E164Type.Invalid, E164Type.Invalid, E164Type.Invalid,
    -- 720..729 
    E164Type.Invalid, E164Type.Invalid, E164Type.Invalid, E164Type.Invalid, E164Type.Invalid,
    E164Type.Invalid, E164Type.Invalid, E164Type.Invalid, E164Type.Invalid, E164Type.Invalid,
    -- 730..739 
    E164Type.Invalid, E164Type.Invalid, E164Type.Invalid, E164Type.Invalid, E164Type.Invalid,
    E164Type.Invalid, E164Type.Invalid, E164Type.Invalid, E164Type.Invalid, E164Type.Invalid,
    -- 740..749 
    E164Type.Invalid, E164Type.Invalid, E164Type.Invalid, E164Type.Invalid, E164Type.Invalid,
    E164Type.Invalid, E164Type.Invalid, E164Type.Invalid, E164Type.Invalid, E164Type.Invalid,
    -- 750..759 
    E164Type.Invalid, E164Type.Invalid, E164Type.Invalid, E164Type.Invalid, E164Type.Invalid,
    E164Type.Invalid, E164Type.Invalid, E164Type.Invalid, E164Type.Invalid, E164Type.Invalid,
    -- 760..769 
    E164Type.Invalid, E164Type.Invalid, E164Type.Invalid, E164Type.Invalid, E164Type.Invalid,
    E164Type.Invalid, E164Type.Invalid, E164Type.Invalid, E164Type.Invalid, E164Type.Invalid,
    -- 770..779 
    E164Type.Invalid, E164Type.Invalid, E164Type.Invalid, E164Type.Invalid, E164Type.Invalid,
    E164Type.Invalid, E164Type.Invalid, E164Type.Invalid, E164Type.Invalid, E164Type.Invalid,
    -- 780..789 
    E164Type.Invalid, E164Type.Invalid, E164Type.Invalid, E164Type.Invalid, E164Type.Invalid,
    E164Type.Invalid, E164Type.Invalid, E164Type.Invalid, E164Type.Invalid, E164Type.Invalid,
    -- 790..799 
    E164Type.Invalid, E164Type.Invalid, E164Type.Invalid, E164Type.Invalid, E164Type.Invalid,
    E164Type.Invalid, E164Type.Invalid, E164Type.Invalid, E164Type.Invalid, E164Type.Invalid,

    -- 800..809 
    E164Type.GlobalService, E164Type.SpareWithNote, E164Type.SpareWithNote, E164Type.SpareWithNote, E164Type.SpareWithNote,
    E164Type.SpareWithNote, E164Type.SpareWithNote, E164Type.SpareWithNote, E164Type.GlobalService, E164Type.SpareWithNote,
    -- 810..819 
    E164Type.Invalid, E164Type.Invalid, E164Type.Invalid, E164Type.Invalid, E164Type.Invalid,
    E164Type.Invalid, E164Type.Invalid, E164Type.Invalid, E164Type.Invalid, E164Type.Invalid,
    -- 820..829 
    E164Type.Invalid, E164Type.Invalid, E164Type.Invalid, E164Type.Invalid, E164Type.Invalid,
    E164Type.Invalid, E164Type.Invalid, E164Type.Invalid, E164Type.Invalid, E164Type.Invalid,
    -- 830..839 
    E164Type.SpareWithNote, E164Type.SpareWithNote, E164Type.SpareWithNote, E164Type.SpareWithNote, E164Type.SpareWithNote,
    E164Type.SpareWithNote, E164Type.SpareWithNote, E164Type.SpareWithNote, E164Type.SpareWithNote, E164Type.SpareWithNote,
    -- 840..849 
    E164Type.Invalid, E164Type.Invalid, E164Type.Invalid, E164Type.Invalid, E164Type.Invalid,
    E164Type.Invalid, E164Type.Invalid, E164Type.Invalid, E164Type.Invalid, E164Type.Invalid,
    -- 850..859 
    E164Type.GeographicArea, E164Type.SpareWithoutNote, E164Type.GeographicArea, E164Type.GeographicArea, E164Type.SpareWithoutNote,
    E164Type.GeographicArea, E164Type.GeographicArea, E164Type.SpareWithoutNote, E164Type.SpareWithoutNote, E164Type.SpareWithoutNote,
    -- 860..869 
    E164Type.Invalid, E164Type.Invalid, E164Type.Invalid, E164Type.Invalid, E164Type.Invalid,
    E164Type.Invalid, E164Type.Invalid, E164Type.Invalid, E164Type.Invalid, E164Type.Invalid,
    -- 870..879 
    E164Type.Network, E164Type.Network, E164Type.Network, E164Type.Network, E164Type.Reserved,
    E164Type.Reserved, E164Type.Reserved, E164Type.Reserved, E164Type.GlobalService, E164Type.Reserved,
    -- 880..889 
    E164Type.GeographicArea, E164Type.Network, E164Type.Network, E164Type.SpareWithNote, E164Type.SpareWithoutNote,
    E164Type.SpareWithoutNote, E164Type.GeographicArea, E164Type.SpareWithoutNote, E164Type.GlobalService, E164Type.SpareWithoutNote,
    -- 890..899 
    E164Type.SpareWithNote, E164Type.SpareWithNote, E164Type.SpareWithNote, E164Type.SpareWithNote, E164Type.SpareWithNote,
    E164Type.SpareWithNote, E164Type.SpareWithNote, E164Type.SpareWithNote, E164Type.SpareWithNote, E164Type.SpareWithNote,

    -- 900..909 
    E164Type.Invalid, E164Type.Invalid, E164Type.Invalid, E164Type.Invalid, E164Type.Invalid,
    E164Type.Invalid, E164Type.Invalid, E164Type.Invalid, E164Type.Invalid, E164Type.Invalid,
    -- 910..919 
    E164Type.Invalid, E164Type.Invalid, E164Type.Invalid, E164Type.Invalid, E164Type.Invalid,
    E164Type.Invalid, E164Type.Invalid, E164Type.Invalid, E164Type.Invalid, E164Type.Invalid,
    -- 920..929 
    E164Type.Invalid, E164Type.Invalid, E164Type.Invalid, E164Type.Invalid, E164Type.Invalid,
    E164Type.Invalid, E164Type.Invalid, E164Type.Invalid, E164Type.Invalid, E164Type.Invalid,
    -- 930..939 
    E164Type.Invalid, E164Type.Invalid, E164Type.Invalid, E164Type.Invalid, E164Type.Invalid,
    E164Type.Invalid, E164Type.Invalid, E164Type.Invalid, E164Type.Invalid, E164Type.Invalid,
    -- 940..949 
    E164Type.Invalid, E164Type.Invalid, E164Type.Invalid, E164Type.Invalid, E164Type.Invalid,
    E164Type.Invalid, E164Type.Invalid, E164Type.Invalid, E164Type.Invalid, E164Type.Invalid,
    -- 950..959 
    E164Type.Invalid, E164Type.Invalid, E164Type.Invalid, E164Type.Invalid, E164Type.Invalid,
    E164Type.Invalid, E164Type.Invalid, E164Type.Invalid, E164Type.Invalid, E164Type.Invalid,
    -- 960..969 
    E164Type.GeographicArea, E164Type.GeographicArea, E164Type.GeographicArea, E164Type.GeographicArea, E164Type.GeographicArea,
    E164Type.GeographicArea, E164Type.GeographicArea, E164Type.GeographicArea, E164Type.GeographicArea, E164Type.Reserved,
    -- 970..979 
    E164Type.Reserved, E164Type.GeographicArea, E164Type.GeographicArea, E164Type.GeographicArea, E164Type.GeographicArea,
    E164Type.GeographicArea, E164Type.GeographicArea, E164Type.GeographicArea, E164Type.SpareWithoutNote, E164Type.GlobalService,
    -- 980..989 
    E164Type.Invalid, E164Type.Invalid, E164Type.Invalid, E164Type.Invalid, E164Type.Invalid,
    E164Type.Invalid, E164Type.Invalid, E164Type.Invalid, E164Type.Invalid, E164Type.Invalid,
    -- 990..999 
    E164Type.SpareWithoutNote, E164Type.GlobalService, E164Type.GeographicArea, E164Type.GeographicArea, E164Type.GeographicArea,
    E164Type.GeographicArea, E164Type.GeographicArea, E164Type.SpareWithoutNote, E164Type.GeographicArea, E164Type.Reserved
]
/-- `e164CountryCodeIsInRange` from e164_base.c: the code is within 0..999.
Country codes are carried as `Int` (C `int4`) where sign matters, as `Nat`
where they originate from digit strings. -/
def e164CountryCodeIsInRange (theCountryCode : Int) : Bool :=
  0 ≤ theCountryCode ∧ theCountryCode ≤ 999

/-- `isOneDigitE164CountryCode` from e164_base.c. -/
def isOneDigitE164CountryCode (theCountryCode : Nat) : Bool :=
  theCountryCode ≤ 9

/-- `isTwoDigitE164CountryCode` from e164_base.c. -/
def isTwoDigitE164CountryCode (theCountryCode : Nat) : Bool :=
  10 ≤ theCountryCode ∧ theCountryCode ≤ 99

/-- `isThreeDigitE164CountryCode` from e164_base.c. -/
def isThreeDigitE164CountryCode (theCountryCode : Nat) : Bool :=
  100 ≤ theCountryCode ∧ theCountryCode ≤ 999

/-- `isUnassignedE164Type` from e164_base.c. -/
def isUnassignedE164Type (aType : E164Type) : Bool :=
  aType = E164Type.SpareWithoutNote ∨ aType = E164Type.SpareWithNote ∨
    aType = E164Type.Reserved

/-- `isInvalidE164Type` from e164_base.c. -/
def isInvalidE164Type (aType : E164Type) : Bool :=
  aType = E164Type.Invalid

/-- `e164TypeForCountryCode` from e164_base.c: table lookup guarded by
`checkE164CountryCodeForRangeError`, whose out-of-range branch calls
`exit` — modelled by `none`. -/
def e164TypeForCountryCode (theCountryCode : Nat) : Option E164Type :=
  if e164CountryCodeIsInRange theCountryCode then
    some (e164TypeFor.getD theCountryCode E164Type.Invalid)
  else
    none

/-- `isdigit` on a C char, for ASCII input: '0'..'9'. -/
def isdigitChar (c : Char) : Bool :=
  '0' ≤ c ∧ c ≤ '9'

/-- `eachCharIsDigit` from e164_base.c: walks the string until the NUL
terminator, clearing the flag at the first non-digit. -/
def eachCharIsDigit : List Char → Bool
  | [] => true
  | theChar :: rest =>
    if isdigitChar theChar then eachCharIsDigit rest else false

/-- Numeric value of a decimal digit string (the effect of `atoi` /
`strtoll` base 10 on a string of digit characters). -/
def digitsToNat (s : List Char) : Nat :=
  s.foldl (fun acc c => 10 * acc + (c.toNat - '0'.toNat)) 0

/-- `e164CountryCodeFromString` from e164_base.c: at most 3 chars, all
digits, value in range; every failing branch calls `exit` (modelled by
`none`). -/
def e164CountryCodeFromString (aString : List Char) : Option Nat :=
  if aString.length ≤ E164MaximumCountryCodeLength ∧ eachCharIsDigit aString then
    let theCountryCode := digitsToNat aString
    if e164CountryCodeIsInRange theCountryCode then some theCountryCode
    else none
  else
    none

/-- The `E164_PREFIX` character. -/
def E164_PREFIX : Char := '+'

/-- `stringHasValidE164Prefix` / `isValidE164PrefixChar` from
e164_base.c: the first character is '+' (the NUL of an empty string is
not). -/
def stringHasValidE164Prefix (aString : List Char) : Bool :=
  match aString with
  | [] => false
  | aChar :: _ => E164_PREFIX = aChar

/-- The `E164ParseResult` codes (used by parseE164String / e164FromString
and handled in e164.c's handleE164ParseError). -/
inductive E164ParseResult where
  | NoParseError
  | BadFormat
  | InvalidPrefix
  | StringTooLong
  | StringTooShort
  | InvalidType
  | NoSubscriberNumberDigits
  | UnassignedType
  | TypeLengthMismatch
deriving DecidableEq, Repr

/-- Outcome of the country-code resolution loop inside `parseE164String`
(e164_base.c lines 375..393): an early `return` with
NoSubscriberNumberDigits, a `break` with the resolved code and type, or
fall-through with `theType` still `E164Invalid` (then `aCountryCode`
holds the 3-digit prefix value from the last iteration). -/
inductive CCLoopResult where
  | noSubscriberDigits
  | resolved (numberOfCountryCodeDigits : Nat) (aCountryCode : Nat) (theType : E164Type)
  | exhausted (aCountryCode : Nat)
deriving DecidableEq, Repr

/-- The `for (digitIndex = 1; E164MaximumCountryCodeLength >= digitIndex; ...)`
loop of `parseE164String`.  Each iteration first checks that at least one
character follows the candidate prefix (`endOfString <= remainder + digitIndex`,
i.e. `remainder.length <= digitIndex`, returns NoSubscriberNumberDigits),
then classifies the `digitIndex`-character prefix and breaks on a
non-Invalid type.  In the `exhausted` case the country code equals the
value of the 3-character prefix computed by the last iteration.  The
loop is recursion on the remaining iteration count. -/
def parseCCLoopGo (remainder : List Char) : Nat → Nat → Option CCLoopResult
  | _, 0 =>
    some (CCLoopResult.exhausted
      (digitsToNat (remainder.take E164MaximumCountryCodeLength)))
  | digitIndex, fuel + 1 =>
    if remainder.length ≤ digitIndex then
      some CCLoopResult.noSubscriberDigits
    else do
      let aCountryCode ← e164CountryCodeFromString (remainder.take digitIndex)
      let aType ← e164TypeForCountryCode aCountryCode
      if aType ≠ E164Type.Invalid then
        some (CCLoopResult.resolved digitIndex aCountryCode aType)
      else
        parseCCLoopGo remainder (digitIndex + 1) fuel

/-- The loop entered at `digitIndex`: the remaining iteration count is
`E164MaximumCountryCodeLength + 1 - digitIndex` (the loop exits with the
`exhausted` fall-through once `digitIndex` exceeds
`E164MaximumCountryCodeLength`). -/
def parseCCLoop (remainder : List Char) (digitIndex : Nat) : Option CCLoopResult :=
  parseCCLoopGo remainder digitIndex
    (E164MaximumCountryCodeLength + 1 - digitIndex)

/-- `hasValidLengthForE164Type` from e164_base.c.  The negative
subscriber-number-length branch and the invalid-type `default` branch call
`exit` (modelled by `none`). -/
def hasValidLengthForE164Type (numberLength countryCodeLength : Nat)
    (aType : E164Type) : Option Bool :=
  let subscriberNumberLength : Int := (numberLength : Int) - (countryCodeLength : Int)
  if subscriberNumberLength < 0 then none
  else if subscriberNumberLength = 0 then some false
  else
    match aType with
    | E164Type.GeographicArea =>
      some (decide ((E164GeographicAreaMinimumSubscriberNumberLength : Int) ≤ subscriberNumberLength))
    | E164Type.GlobalService =>
      some (decide ((E164GlobalServiceMinimumSubscriberNumberLength : Int) ≤ subscriberNumberLength))
    | E164Type.Network =>
      some (decide ((E164NetworkMinimumSubscriberNumberLength : Int) ≤ subscriberNumberLength))
    | E164Type.GroupOfCountries =>
      some (decide ((E164GroupOfCountriesMinimumSubscriberNumberLength : Int) ≤ subscriberNumberLength))
    | _ => none

/-- The observable outputs of `parseE164String`: the returned
`E164ParseResult` plus the two out-parameters that the callers read
(`theDigits`, assigned by `strcpy` as soon as the all-digit branch is
entered, and `*aCode`; `none` models an out-parameter left unassigned).
The `subscriberNumber` out-parameter is never written by this version of
the code. -/
structure ParseOutput where
  result : E164ParseResult
  theDigits : List Char
  aCode : Option Nat
deriving DecidableEq, Repr

/-- The body of the all-digit branch of `parseE164String` (e164_base.c
lines 360..420): resolve the country code, then classify the outcome and
check the subscriber-number length. -/
def parseAllDigitRemainder (remainder : List Char) : Option ParseOutput := do
  let r ← parseCCLoop remainder 1
  match r with
  | CCLoopResult.noSubscriberDigits =>
    some ⟨E164ParseResult.NoSubscriberNumberDigits, remainder, none⟩
  | CCLoopResult.exhausted aCountryCode =>
    some ⟨E164ParseResult.InvalidType, remainder, some aCountryCode⟩
  | CCLoopResult.resolved numberOfCountryCodeDigits aCountryCode theType =>
    if isInvalidE164Type theType then
      some ⟨E164ParseResult.InvalidType, remainder, some aCountryCode⟩
    else if isUnassignedE164Type theType then
      some ⟨E164ParseResult.UnassignedType, remainder, some aCountryCode⟩
    else if remainder.length ≤ numberOfCountryCodeDigits then
      some ⟨E164ParseResult.NoSubscriberNumberDigits, remainder, some aCountryCode⟩
    else do
      let ok ← hasValidLengthForE164Type remainder.length
        numberOfCountryCodeDigits theType
      if ok then
        some ⟨E164ParseResult.NoParseError, remainder, some aCountryCode⟩
      else
        some ⟨E164ParseResult.TypeLengthMismatch, remainder, some aCountryCode⟩

/-- `parseE164String` from e164_base.c.  Outer `none` models the fatal
`exit` paths of the helpers it calls (never reached for the inputs the
checks allow through). -/
def parseE164String (aNumberString : List Char) : Option ParseOutput :=
  let stringLength := aNumberString.length
  if E164MaximumStringLength < stringLength then
    some ⟨E164ParseResult.StringTooLong, [], none⟩
  else if stringLength < E164MinimumStringLength then
    some ⟨E164ParseResult.StringTooShort, [], none⟩
  else if ¬ stringHasValidE164Prefix aNumberString then
    some ⟨E164ParseResult.InvalidPrefix, [], none⟩
  else
    let remainder := aNumberString.drop 1
    if eachCharIsDigit remainder then
      parseAllDigitRemainder remainder
    else
      some ⟨E164ParseResult.BadFormat, [], none⟩

/-! The packed-representation bit masks from e164_base.c. -/

def E164_NUMBER_MASK : Nat := 0x0003FFFFFFFFFFFF
def E164_CC_LENGTH_MASK : Nat := 0x000C000000000000
def E164_NUMBER_AND_CC_LENGTH_MASK : Nat := E164_NUMBER_MASK ||| E164_CC_LENGTH_MASK
def E164_ONE_DIGIT_CC_MASK : Nat := 0x0004000000000000
def E164_TWO_DIGIT_CC_MASK : Nat := 0x0008000000000000
def E164_THREE_DIGIT_CC_MASK : Nat := 0x000C000000000000
def E164_CC_LENGTH_OFFSET : Nat := 50
def E164_GEOGRAPHIC_AREA_MASK : Nat := 0x0010000000000000
def E164_GLOBAL_SERVICE_MASK : Nat := 0x0020000000000000
def E164_NETWORK_MASK : Nat := 0x0040000000000000
def E164_GROUP_OF_COUNTRIES_MASK : Nat := 0x0080000000000000

/-- `initializeE164WithCountryCode` from e164_base.c: sets the
country-code-length field and the type-mask bit; the unrecognized-type
and out-of-range branches call `exit` (modelled by `none`). -/
def initializeE164WithCountryCode (aCountryCode : Nat) : Option Nat :=
  if isOneDigitE164CountryCode aCountryCode then
    some (E164_ONE_DIGIT_CC_MASK ||| E164_GEOGRAPHIC_AREA_MASK)
  else if isTwoDigitE164CountryCode aCountryCode then
    some (E164_TWO_DIGIT_CC_MASK ||| E164_GEOGRAPHIC_AREA_MASK)
  else if isThreeDigitE164CountryCode aCountryCode then do
    let aType ← e164TypeForCountryCode aCountryCode
    let typeMask ←
      match aType with
      | E164Type.GeographicArea => some E164_GEOGRAPHIC_AREA_MASK
      | E164Type.GlobalService => some E164_GLOBAL_SERVICE_MASK
      | E164Type.Network => some E164_NETWORK_MASK
      | E164Type.GroupOfCountries => some E164_GROUP_OF_COUNTRIES_MASK
      | _ => none
    some (E164_THREE_DIGIT_CC_MASK ||| typeMask)
  else
    none

/-- Result of `e164FromString`: either the packed value with the
country-code out-parameter, or the parse error (with the country code
when `parseE164String` assigned it). -/
inductive E164FromStringResult where
  | ok (aNumber : Nat) (aCode : Nat)
  | err (result : E164ParseResult) (aCode : Option Nat)
deriving DecidableEq, Repr

/-- `e164FromString` from e164_base.c: on `E164NoParseError` the result
is `initializeE164WithCountryCode(*aCode) | strtoll(theDigits)`.
`digitsToNat` models `strtoll` exactly for digit strings whose value
fits in int64, which holds for every input appearing in the claims. -/
def e164FromString (aString : List Char) : Option E164FromStringResult := do
  let po ← parseE164String aString
  if po.result = E164ParseResult.NoParseError then do
    let aCode ← po.aCode
    let base ← initializeE164WithCountryCode aCode
    some (E164FromStringResult.ok (base ||| digitsToNat po.theDigits) aCode)
  else
    some (E164FromStringResult.err po.result po.aCode)

/-- Decimal rendering of a nonnegative value, most significant digit
first (the effect of printf `%lld` on a nonnegative int64).  The
recursion is on a fuel that starts at the value itself, which dominates
the digit count; the fuel-0 arm is reached only with n = 0, where it
coincides with the n < 10 arm. -/
def decCharsGo : Nat → Nat → List Char → List Char
  | 0, n, acc => Char.ofNat ('0'.toNat + n % 10) :: acc
  | fuel + 1, n, acc =>
    if n < 10 then Char.ofNat ('0'.toNat + n) :: acc
    else decCharsGo fuel (n / 10) (Char.ofNat ('0'.toNat + n % 10) :: acc)

def decChars (n : Nat) : List Char := decCharsGo n n []

/-- `stringFromE164` from e164_base.c:
`snprintf(aString, stringLength, "+%lld", aNumber & E164_NUMBER_MASK)`.
`snprintf` writes at most `stringLength - 1` characters. -/
def stringFromE164 (stringLength : Nat) (aNumber : Nat) : List Char :=
  ('+' :: decChars (aNumber &&& E164_NUMBER_MASK)).take (stringLength - 1)

/-- `e164Comparison` from e164_base.c: both values are masked with
`E164_NUMBER_AND_CC_LENGTH_MASK` and compared. -/
def e164Comparison (firstNumber secondNumber : Nat) : Int :=
  if firstNumber &&& E164_NUMBER_AND_CC_LENGTH_MASK
      < secondNumber &&& E164_NUMBER_AND_CC_LENGTH_MASK then
    -1
  else if firstNumber &&& E164_NUMBER_AND_CC_LENGTH_MASK
      = secondNumber &&& E164_NUMBER_AND_CC_LENGTH_MASK then
    0
  else
    1

/-! The six derived comparison predicates from e164_base.c. -/

def e164IsEqualTo (firstNumber secondNumber : Nat) : Bool :=
  0 = e164Comparison firstNumber secondNumber

def e164IsNotEqualTo (firstNumber secondNumber : Nat) : Bool :=
  0 ≠ e164Comparison firstNumber secondNumber

/-! PostgreSQL's `hash_any` (Jenkins lookup3, the 2011-era backend
implementation), which `e164_hash` in e164.c applies to the 8 raw bytes
of the packed value.  For an aligned 8-byte key on a little-endian
platform (the reference system) the function reduces to: initialize
`a = b = c = 0x9e3779b9 + keylen + 3923095`, add the low 32-bit word to
`a` and the high word to `b` (the `case 8` arm of the tail switch), and
run the `final` mixer; the result is `c`.  All arithmetic is on uint32,
modelled with explicit `% 2 ^ 32`. -/

def UINT32_MOD : Nat := 2 ^ 32

def rot32 (x k : Nat) : Nat :=
  ((x <<< k) ||| (x >>> (32 - k))) % UINT32_MOD

def sub32 (x y : Nat) : Nat := (x + UINT32_MOD - y % UINT32_MOD) % UINT32_MOD

/-- The `final(a,b,c)` macro of hash_any. -/
def pgHashFinal (a b c : Nat) : Nat :=
  let c := sub32 (c ^^^ b) (rot32 b 14)
  let a := sub32 (a ^^^ c) (rot32 c 11)
  let b := sub32 (b ^^^ a) (rot32 a 25)
  let c := sub32 (c ^^^ b) (rot32 b 16)
  let a := sub32 (a ^^^ c) (rot32 c 4)
  let b := sub32 (b ^^^ a) (rot32 a 14)
  let c := sub32 (c ^^^ b) (rot32 b 24)
  c

/-- `hash_any(k, 8)` on the bytes of a 64-bit value (little-endian,
4-byte aligned). -/
def pgHashAnyUint64 (k : Nat) : Nat :=
  let len := 8
  let init := (0x9e3779b9 + len + 3923095) % UINT32_MOD
  let a := (init + k % UINT32_MOD) % UINT32_MOD
  let b := (init + (k >>> 32) % UINT32_MOD) % UINT32_MOD
  let c := init
  pgHashFinal a b c

/-- `e164_hash` from e164.c: `hash_any((unsigned char *)&arg1, sizeof(E164))`
— the full 64-bit datum is hashed, with no masking. -/
def e164_hash (arg1 : Nat) : Nat :=
  pgHashAnyUint64 (arg1 % 2 ^ 64)

/-! Area-code structures from e164_area_codes.h.  `exceptionsList` is a
`char *`: `none` models the NULL pointer, `some cs` the NUL-terminated
string `cs`. -/

structure E164AreaCodesFormat where
  countryCode : Nat
  defaultAreaCodeLength : Nat
  exceptionsList : Option (List Char)
deriving DecidableEq, Repr

structure E164AreaCodesInfo where
  formats : List E164AreaCodesFormat
deriving DecidableEq, Repr

/-- `e164TypeSupportsAreaCode` from e164_area_codes.c. -/
def e164TypeSupportsAreaCode (aType : E164Type) : Bool :=
  aType = E164Type.GeographicArea ∨ aType = E164Type.GroupOfCountries

/-- `e164CountryCodeSupportsAreaCode` from e164_area_codes.c; inherits
the fatal out-of-range trap of `e164TypeForCountryCode`. -/
def e164CountryCodeSupportsAreaCode (aCountryCode : Nat) : Option Bool :=
  (e164TypeForCountryCode aCountryCode).map e164TypeSupportsAreaCode

/-- The NUL character read by `*p` at the end of a C string. -/
def nulChar : Char := Char.ofNat 0

/-- The first character of a C string suffix (NUL at the end). -/
def headChar (s : List Char) : Char :=
  match s with
  | [] => nulChar
  | c :: _ => c

/-- The exception-matching loop of `e164AreaCodeLengthOf`
(e164_area_codes.c lines 74..97), with `start` the subscriber substring,
`p` the current position in it and `e` the current position in the
exceptions list.  `p - start` is `start.length - p.length`.  `some n`
models `return n` from inside the loop, `none` the `break` that falls
through to `return format->defaultAreaCodeLength`. -/
def areaCodeExcScanGo (start : List Char) :
    List Char → List Char → Nat → Option Nat
  | _, _, 0 => none
  | p, e, fuel + 1 =>
    -- the C locals `*p` and `*e` are written `headChar p` / `headChar e`
    if headChar p ≠ headChar e then
      if headChar e = nulChar ∨ headChar e = ',' then
        some (start.length - p.length)
      else
        match e.dropWhile (fun c => ¬ (c = ',')) with
        | [] => none
        | _ :: rest => areaCodeExcScanGo start start rest fuel
    else
      match e with
      | [] =>
        -- both *p and *e are NUL here, so the inner `if (!*p)` returns
        some (start.length - p.length)
      | _ :: etail => areaCodeExcScanGo start p.tail etail fuel

/-- The loop is entered with fuel `e.length + 1`; every iteration
strictly shortens `e`, so the fuel-0 arm is unreachable (see
`areaCodeExcScanGo_irrel` below). -/
def areaCodeExcScan (start p e : List Char) : Option Nat :=
  areaCodeExcScanGo start p e (e.length + 1)

/-- `e164AreaCodeLengthOf` from e164_area_codes.c.  `currentCodesInfo`
is the process-wide installed table (NULL modelled by `none`).  The
number is rendered with `snprintf(buffer, sizeof(buffer), UINT64_FORMAT,
aNumber)` into a 16-byte buffer, so the decimal string is truncated to
the first 15 characters.  `lfind` with `compareInts` returns the first
format whose leading int field (the country code) equals the key.
Result `none` models the fatal out-of-range trap inside
`e164CountryCodeSupportsAreaCode`. -/
def e164AreaCodeLengthOf (currentCodesInfo : Option E164AreaCodesInfo)
    (aNumber : Nat) (aCountryCode : Nat) (countryCodeLength : Nat) :
    Option Nat := do
  let supports ← e164CountryCodeSupportsAreaCode aCountryCode
  match currentCodesInfo, supports with
  | none, _ => some 0
  | _, false => some 0
  | some codesInfo, true =>
    match codesInfo.formats.find? (fun f => f.countryCode = aCountryCode) with
    | none => some 0
    | some format =>
      let buffer := (decChars aNumber).take E164MaximumNumberOfDigits
      match format.exceptionsList with
      | some exceptionsList =>
        let start := buffer.drop countryCodeLength
        match areaCodeExcScan start start exceptionsList with
        | some n => some n
        | none => some format.defaultAreaCodeLength
      | none => some format.defaultAreaCodeLength

/-- `e164SetAreaCodesInfo` from e164_area_codes.c as a state transition
on the process-wide `currentCodesInfo`: the new current table is the
argument. -/
def e164SetAreaCodesInfo (codesInfo : Option E164AreaCodesInfo) :
    Option E164AreaCodesInfo :=
  codesInfo

/-- The white-space characters skipped by `strtol`. -/
def isspaceChar (c : Char) : Bool :=
  c = ' ' ∨ c = Char.ofNat 9 ∨ c = Char.ofNat 10 ∨ c = Char.ofNat 11 ∨
    c = Char.ofNat 12 ∨ c = Char.ofNat 13

/-- `strtol(nptr, &endptr, 10)`: skip white space, optional sign,
longest digit run; the value and the rest of the string from `endptr`.
With no digits there is no conversion: value 0 and `endptr = nptr`.
(The `LONG_MAX` clamp on overflow is not modelled; a clamped value is
out of the 0..999 country-code range exactly as the unclamped one.) -/
def strtol10 (nptr : List Char) : Int × List Char :=
  let afterSpace := nptr.dropWhile isspaceChar
  match afterSpace with
  | '-' :: rest =>
    let digits := rest.takeWhile isdigitChar
    if digits = [] then (0, nptr)
    else (-(digitsToNat digits : Int), rest.dropWhile isdigitChar)
  | '+' :: rest =>
    let digits := rest.takeWhile isdigitChar
    if digits = [] then (0, nptr)
    else ((digitsToNat digits : Int), rest.dropWhile isdigitChar)
  | rest =>
    let digits := rest.takeWhile isdigitChar
    if digits = [] then (0, nptr)
    else ((digitsToNat digits : Int), rest.dropWhile isdigitChar)

/-- The character-check loop of `parseAreaCodeExceptions`
(e164_area_codes.c lines 315..324), carrying `previous`; `none` is the
bad-stop-char failure, `some c` the final value of `previous`. -/
def excCharScan : Char → List Char → Option Char
  | previous, [] => some previous
  | previous, p :: rest =>
    if (¬ isdigitChar p ∧ ¬ (p = ',')) ∨ (previous = ',' ∧ p = ',') then none
    else excCharScan p rest

/-- `parseAreaCodeExceptions` from e164_area_codes.c: every character a
digit or a comma, no doubled comma, no trailing comma; on success the
exceptions string is copied verbatim into the table. -/
def parseAreaCodeExceptions (aString : List Char) : Option (List Char) :=
  match excCharScan (Char.ofNat 0) aString with
  | none => none
  | some previous =>
    if previous = ',' then none
    else some aString

/-- One iteration of the rule loop in `parseAreaCodesInfo`
(e164_area_codes.c lines 194..288), applied to one `strtok_r` token;
`existing` is the list of formats parsed so far (scanned by `lfind` for
a duplicate country code).  `none` is any of the validation failures
(which make the whole compilation fail). -/
def parseOneAreaCodesFormat (token : List Char)
    (existing : List E164AreaCodesFormat) : Option E164AreaCodesFormat := do
  if ¬ stringHasValidE164Prefix token then none
  else
    let afterPrefix := token.drop E164PrefixStringLength
    let (countryCode, stop) := strtol10 afterPrefix
    if ¬ (headChar stop = ':') then none
    else if ¬ e164CountryCodeIsInRange countryCode then none
    else do
      let type ← e164TypeForCountryCode countryCode.toNat
      if isInvalidE164Type type then none
      else if ¬ e164TypeSupportsAreaCode type then none
      else if (existing.find? (fun f => (f.countryCode : Int) = countryCode)).isSome then
        none
      else
        let afterColon := stop.drop 1
        if ¬ (headChar afterColon = 'x') then none
        else
          let xs := afterColon.takeWhile (fun c => c = 'x')
          let afterXs := afterColon.dropWhile (fun c => c = 'x')
          if ¬ (afterXs = []) ∧ ¬ (headChar afterXs = ',') then none
          else
            let defaultAreaCodeLength := xs.length
            match afterXs with
            | [] =>
              some ⟨countryCode.toNat, defaultAreaCodeLength, none⟩
            | _ :: afterComma =>
              if afterComma = [] then none
              else do
                let exceptionsList ← parseAreaCodeExceptions afterComma
                some ⟨countryCode.toNat, defaultAreaCodeLength, some exceptionsList⟩

/-- The rule loop of `parseAreaCodesInfo` over the `strtok_r` tokens. -/
def parseAreaCodesInfoTokens : List (List Char) → List E164AreaCodesFormat →
    Option (List E164AreaCodesFormat)
  | [], acc => some acc
  | token :: rest, acc =>
    match parseOneAreaCodesFormat token acc with
    | none => none
    | some fmt => parseAreaCodesInfoTokens rest (acc ++ [fmt])

/-- `parseE164AreaCodesFormat` from e164_area_codes.c.  `strtok_r` with
";" yields the maximal nonempty runs between semicolons.  Outer `none`
is the `return false` failure; `some none` is success with the NULL
table (the shortcut for the empty option); `some (some info)` is success
with a table.  The C shortcut tests the pre-scan count of ':' characters,
which on every success path equals the number of parsed formats (each
accepted rule contains exactly one ':'). -/
def parseE164AreaCodesFormat (aFormat : List Char) :
    Option (Option E164AreaCodesInfo) :=
  let tokens := (aFormat.splitOn ';').filter (fun t => ¬ (t = []))
  match parseAreaCodesInfoTokens tokens [] with
  | none => none
  | some formats =>
    if formats.length = 0 then some none
    else some (some ⟨formats⟩)

/-- Modelled from the spec: the configuration-change hook (the GUC
check/assign callbacks of the outer adaptation layer, not under src/)
compiles the format string and publishes the result through
`e164SetAreaCodesInfo` only when compilation succeeds; a validation
failure leaves the previously installed table untouched.  The returned
Bool is the check hook's verdict. -/
def configureAreaCodes (aFormat : List Char)
    (current : Option E164AreaCodesInfo) :
    Option E164AreaCodesInfo × Bool :=
  match parseE164AreaCodesFormat aFormat with
  | none => (current, false)
  | some newInfo => (e164SetAreaCodesInfo newInfo, true)

/-- The comma-separated pieces of an exceptions string (the individual
exception values, in list order). -/
def commaPieces : List Char → List (List Char)
  | [] => [[]]
  | c :: rest =>
    if c = ',' then [] :: commaPieces rest
    else
      match commaPieces rest with
      | [] => [[c]]
      | p :: ps => (c :: p) :: ps

/-- The area-code exception rule in the words of the claim: the digit
length of the longest exception value that is an exact textual prefix of
the subscriber substring, or the rule's default length when no exception
matches. -/
def longestExceptionPrefixLength (exceptionsList subscriber : List Char)
    (defaultLength : Nat) : Nat :=
  let matching := (commaPieces exceptionsList).filter
    (fun pc => pc.isPrefixOf subscriber)
  if matching = [] then defaultLength
  else matching.foldl (fun m pc => max m pc.length) 0

/-- The amended exception rule: the digit length of the first exception,
in list order, that is an exact textual prefix of the subscriber
substring, or the default length when none matches. -/
def firstExceptionPrefixLength (exceptionsList subscriber : List Char)
    (defaultLength : Nat) : Nat :=
  match (commaPieces exceptionsList).find? (fun pc => pc.isPrefixOf subscriber) with
  | some pc => pc.length
  | none => defaultLength

/-- The minimum subscriber-number length per assigned type, as the claim
states it: at least 1 digit for GeographicArea and GlobalService, at
least 2 digits for Network and GroupOfCountries. -/
def minimumSubscriberNumberLength : E164Type → Nat
  | E164Type.GeographicArea => E164GeographicAreaMinimumSubscriberNumberLength
  | E164Type.GlobalService => E164GlobalServiceMinimumSubscriberNumberLength
  | E164Type.Network => E164NetworkMinimumSubscriberNumberLength
  | E164Type.GroupOfCountries => E164GroupOfCountriesMinimumSubscriberNumberLength
  | _ => 0

/-- The type-mask nibble (bits 52..55 of the packed value, shifted down)
that corresponds to each assigned type: exactly one bit set, 0 for the
types that never occur in a packed value. -/
def typeMaskNibble : E164Type → Nat
  | E164Type.GeographicArea => 1
  | E164Type.GlobalService => 2
  | E164Type.Network => 4
  | E164Type.GroupOfCountries => 8
  | _ => 0

/-- The prefix of `remainder` of length `k` classifies during the
country-code resolution loop: at least one digit follows it (the loop
checks this before classifying) and its table classification is not
Invalid. -/
def ccPrefixClassifies (remainder : List Char) (k : Nat) : Prop :=
  k < remainder.length ∧
    e164TypeFor.getD (digitsToNat (remainder.take k)) E164Type.Invalid ≠
      E164Type.Invalid

instance (remainder : List Char) (k : Nat) :
    Decidable (ccPrefixClassifies remainder k) := by
  unfold ccPrefixClassifies
  infer_instance

/-! Helper lemmas. -/

theorem eachCharIsDigit_iff_all (s : List Char) :
    eachCharIsDigit s = true ↔ ∀ c ∈ s, isdigitChar c = true := by
  induction s with
  | nil => simp [eachCharIsDigit]
  | cons c rest ih =>
    unfold eachCharIsDigit
    by_cases hc : isdigitChar c = true
    · simp [hc, ih]
    · rw [if_neg hc]
      constructor
      · intro hcontra
        cases hcontra
      · intro h
        exact absurd (h c (List.mem_cons_self c rest)) hc

theorem eachCharIsDigit_take (n : Nat) (s : List Char)
    (h : eachCharIsDigit s = true) : eachCharIsDigit (s.take n) = true := by
  rw [eachCharIsDigit_iff_all] at h ⊢
  intro c hc
  exact h c (List.take_subset n s hc)

theorem digitsFold_lt (s : List Char) (acc : Nat)
    (h : ∀ c ∈ s, isdigitChar c = true) :
    s.foldl (fun acc c => 10 * acc + (c.toNat - '0'.toNat)) acc <
      (acc + 1) * 10 ^ s.length := by
  induction s generalizing acc with
  | nil => simp
  | cons c rest ih =>
    have hc : isdigitChar c = true := h c (List.mem_cons_self c rest)
    have hd : c.toNat - '0'.toNat ≤ 9 := by
      unfold isdigitChar at hc
      simp only [Bool.and_eq_true, decide_eq_true_eq] at hc
      have h2 : c.toNat ≤ 57 := hc.2
      have h0 : '0'.toNat = 48 := rfl
      omega
    have hrest : ∀ x ∈ rest, isdigitChar x = true := fun x hx =>
      h x (List.mem_cons_of_mem c hx)
    simp only [List.foldl_cons, List.length_cons, pow_succ]
    have step := ih (10 * acc + (c.toNat - '0'.toNat)) hrest
    have hle : (10 * acc + (c.toNat - '0'.toNat) + 1) * 10 ^ rest.length ≤
        (acc + 1) * (10 ^ rest.length * 10) := by
      have h1 : 10 * acc + (c.toNat - '0'.toNat) + 1 ≤ (acc + 1) * 10 := by
        omega
      calc (10 * acc + (c.toNat - '0'.toNat) + 1) * 10 ^ rest.length
          ≤ (acc + 1) * 10 * 10 ^ rest.length := Nat.mul_le_mul_right _ h1
        _ = (acc + 1) * (10 ^ rest.length * 10) := by ring
    exact step.trans_le hle

theorem digitsToNat_lt_pow (s : List Char) (h : eachCharIsDigit s = true) :
    digitsToNat s < 10 ^ s.length := by
  have := digitsFold_lt s 0 ((eachCharIsDigit_iff_all s).mp h)
  simpa [digitsToNat] using this

theorem digitsToNat_le_999 (s : List Char) (h : eachCharIsDigit s = true)
    (hl : s.length ≤ 3) : digitsToNat s ≤ 999 := by
  have h1 := digitsToNat_lt_pow s h
  have h2 : (10 : Nat) ^ s.length ≤ 10 ^ 3 :=
    Nat.pow_le_pow_right (by omega) hl
  omega

theorem e164CountryCodeFromString_digits (s : List Char)
    (h : eachCharIsDigit s = true) (hl : s.length ≤ 3) :
    e164CountryCodeFromString s = some (digitsToNat s) := by
  have hle := digitsToNat_le_999 s h hl
  unfold e164CountryCodeFromString
  rw [if_pos]
  · rw [if_pos]
    unfold e164CountryCodeIsInRange
    simp only [decide_eq_true_eq, Bool.and_eq_true, decide_eq_true_iff]
    constructor
    · exact Int.ofNat_nonneg _
    · exact_mod_cast hle
  · exact ⟨by simpa [E164MaximumCountryCodeLength] using hl, h⟩

theorem e164TypeForCountryCode_le_999 (cc : Nat) (h : cc ≤ 999) :
    e164TypeForCountryCode cc = some (e164TypeFor.getD cc E164Type.Invalid) := by
  unfold e164TypeForCountryCode
  rw [if_pos]
  unfold e164CountryCodeIsInRange
  simp only [Bool.and_eq_true, decide_eq_true_iff]
  constructor
  · exact Int.ofNat_nonneg _
  · exact_mod_cast h

theorem parseCCLoop_unfold (ds : List Char) (j : Nat) (hj : j ≤ 3) :
    parseCCLoop ds j =
      (if ds.length ≤ j then some CCLoopResult.noSubscriberDigits
       else do
         let aCountryCode ← e164CountryCodeFromString (ds.take j)
         let aType ← e164TypeForCountryCode aCountryCode
         if aType ≠ E164Type.Invalid then
           some (CCLoopResult.resolved j aCountryCode aType)
         else
           parseCCLoop ds (j + 1)) := by
  unfold parseCCLoop
  have hfuel : E164MaximumCountryCodeLength + 1 - j =
      (E164MaximumCountryCodeLength + 1 - (j + 1)) + 1 := by
    simp only [E164MaximumCountryCodeLength]
    omega
  rw [hfuel]
  rfl

theorem parseCCLoop_exhausted_eq (ds : List Char) :
    parseCCLoop ds 4 =
      some (CCLoopResult.exhausted (digitsToNat (ds.take 3))) := by
  unfold parseCCLoop
  simp only [E164MaximumCountryCodeLength]
  rfl

theorem parseCCLoop_noSub (ds : List Char) (j : Nat) (hj : j ≤ 3)
    (hlen : ds.length ≤ j) :
    parseCCLoop ds j = some CCLoopResult.noSubscriberDigits := by
  rw [parseCCLoop_unfold ds j hj]
  rw [if_pos hlen]

theorem parseCCLoop_resolvesHere (ds : List Char) (j : Nat) (hj : j ≤ 3)
    (hlen : j < ds.length) (hdig : eachCharIsDigit ds = true)
    (hty : e164TypeFor.getD (digitsToNat (ds.take j)) E164Type.Invalid ≠
      E164Type.Invalid) :
    parseCCLoop ds j = some (CCLoopResult.resolved j (digitsToNat (ds.take j))
      (e164TypeFor.getD (digitsToNat (ds.take j)) E164Type.Invalid)) := by
  have htake : (ds.take j).length ≤ 3 := by
    simp only [List.length_take]
    omega
  have hcc := e164CountryCodeFromString_digits (ds.take j)
    (eachCharIsDigit_take j ds hdig) htake
  have hccle := digitsToNat_le_999 (ds.take j)
    (eachCharIsDigit_take j ds hdig) htake
  rw [parseCCLoop_unfold ds j hj]
  rw [if_neg (by omega)]
  rw [hcc]
  simp only [Option.bind_eq_bind, Option.some_bind]
  rw [e164TypeForCountryCode_le_999 _ hccle]
  simp only [Option.some_bind]
  rw [if_pos hty]

theorem parseCCLoop_stepInvalid (ds : List Char) (j : Nat) (hj : j ≤ 3)
    (hlen : j < ds.length) (hdig : eachCharIsDigit ds = true)
    (hty : e164TypeFor.getD (digitsToNat (ds.take j)) E164Type.Invalid =
      E164Type.Invalid) :
    parseCCLoop ds j = parseCCLoop ds (j + 1) := by
  have htake : (ds.take j).length ≤ 3 := by
    simp only [List.length_take]
    omega
  have hcc := e164CountryCodeFromString_digits (ds.take j)
    (eachCharIsDigit_take j ds hdig) htake
  have hccle := digitsToNat_le_999 (ds.take j)
    (eachCharIsDigit_take j ds hdig) htake
  rw [parseCCLoop_unfold ds j hj]
  rw [if_neg (by omega)]
  rw [hcc]
  simp only [Option.bind_eq_bind, Option.some_bind]
  rw [e164TypeForCountryCode_le_999 _ hccle]
  simp only [Option.some_bind]
  rw [if_neg (by simp only [ne_eq, not_not]; simpa [List.getD] using hty)]

theorem parseCCLoop_resolved_inv (ds : List Char) (k cc : Nat) (ty : E164Type)
    (hdig : eachCharIsDigit ds = true)
    (h : parseCCLoop ds 1 = some (CCLoopResult.resolved k cc ty)) :
    1 ≤ k ∧ k ≤ 3 ∧ k < ds.length ∧ cc = digitsToNat (ds.take k) ∧
      ty = e164TypeFor.getD cc E164Type.Invalid ∧
      (∀ j, 1 ≤ j → j < k →
        e164TypeFor.getD (digitsToNat (ds.take j)) E164Type.Invalid =
          E164Type.Invalid) := by
  by_cases h1len : ds.length ≤ 1
  · rw [parseCCLoop_noSub ds 1 (by omega) h1len] at h
    simp at h
  · push_neg at h1len
    by_cases t1 : e164TypeFor.getD (digitsToNat (ds.take 1)) E164Type.Invalid ≠
      E164Type.Invalid
    · rw [parseCCLoop_resolvesHere ds 1 (by omega) h1len hdig t1] at h
      simp only [Option.some.injEq, CCLoopResult.resolved.injEq] at h
      obtain ⟨hk, hcc, hty⟩ := h
      subst hk
      refine ⟨le_refl 1, by omega, h1len, hcc.symm, ?_, ?_⟩
      · rw [hcc] at hty
        exact hty.symm
      · intro j hj1 hjk
        omega
    · rw [not_not] at t1
      rw [parseCCLoop_stepInvalid ds 1 (by omega) h1len hdig t1] at h
      by_cases h2len : ds.length ≤ 2
      · rw [parseCCLoop_noSub ds 2 (by omega) h2len] at h
        simp at h
      · push_neg at h2len
        by_cases t2 : e164TypeFor.getD (digitsToNat (ds.take 2))
            E164Type.Invalid ≠ E164Type.Invalid
        · rw [parseCCLoop_resolvesHere ds 2 (by omega) h2len hdig t2] at h
          simp only [Option.some.injEq, CCLoopResult.resolved.injEq] at h
          obtain ⟨hk, hcc, hty⟩ := h
          subst hk
          refine ⟨by omega, by omega, h2len, hcc.symm, ?_, ?_⟩
          · rw [hcc] at hty
            exact hty.symm
          · intro j hj1 hjk
            have hj : j = 1 := by omega
            subst hj
            exact t1
        · rw [not_not] at t2
          rw [parseCCLoop_stepInvalid ds 2 (by omega) h2len hdig t2] at h
          by_cases h3len : ds.length ≤ 3
          · rw [parseCCLoop_noSub ds 3 (by omega) h3len] at h
            simp at h
          · push_neg at h3len
            by_cases t3 : e164TypeFor.getD (digitsToNat (ds.take 3))
                E164Type.Invalid ≠ E164Type.Invalid
            · rw [parseCCLoop_resolvesHere ds 3 (by omega) h3len hdig t3] at h
              simp only [Option.some.injEq, CCLoopResult.resolved.injEq] at h
              obtain ⟨hk, hcc, hty⟩ := h
              subst hk
              refine ⟨by omega, le_refl 3, h3len, hcc.symm, ?_, ?_⟩
              · rw [hcc] at hty
                exact hty.symm
              · intro j hj1 hjk
                interval_cases j
                · exact t1
                · exact t2
            · rw [not_not] at t3
              rw [parseCCLoop_stepInvalid ds 3 (by omega) h3len hdig t3] at h
              rw [parseCCLoop_exhausted_eq] at h
              simp at h

theorem parseAllDigitRemainder_ok_inv (rem : List Char) (po : ParseOutput)
    (h : parseAllDigitRemainder rem = some po)
    (hres : po.result = E164ParseResult.NoParseError) :
    ∃ k cc ty, parseCCLoop rem 1 = some (CCLoopResult.resolved k cc ty) ∧
      isInvalidE164Type ty = false ∧ isUnassignedE164Type ty = false ∧
      k < rem.length ∧
      hasValidLengthForE164Type rem.length k ty = some true ∧
      po = ⟨E164ParseResult.NoParseError, rem, some cc⟩ := by
  unfold parseAllDigitRemainder at h
  cases hloop : parseCCLoop rem 1 with
  | none =>
    rw [hloop] at h
    simp at h
  | some r =>
    rw [hloop] at h
    simp only [Option.bind_eq_bind, Option.some_bind] at h
    cases r with
    | noSubscriberDigits =>
      simp only [Option.some.injEq] at h
      rw [← h] at hres
      cases hres
    | exhausted aCountryCode =>
      simp only [Option.some.injEq] at h
      rw [← h] at hres
      cases hres
    | resolved k cc ty =>
      dsimp only at h
      by_cases hinv : isInvalidE164Type ty = true
      · rw [if_pos hinv] at h
        simp only [Option.some.injEq] at h
        rw [← h] at hres
        cases hres
      · rw [if_neg hinv] at h
        by_cases huna : isUnassignedE164Type ty = true
        · rw [if_pos huna] at h
          simp only [Option.some.injEq] at h
          rw [← h] at hres
          cases hres
        · rw [if_neg huna] at h
          by_cases hlen : rem.length ≤ k
          · rw [if_pos hlen] at h
            simp only [Option.some.injEq] at h
            rw [← h] at hres
            cases hres
          · rw [if_neg hlen] at h
            cases hvl : hasValidLengthForE164Type rem.length k ty with
            | none =>
              rw [hvl] at h
              simp at h
            | some ok =>
              rw [hvl] at h
              simp only [Option.some_bind] at h
              cases ok with
              | true =>
                rw [if_pos rfl] at h
                simp only [Option.some.injEq] at h
                exact ⟨k, cc, ty, rfl, by simpa using hinv, by simpa using huna,
                  by omega, hvl, h.symm⟩
              | false =>
                simp only [Bool.false_eq_true, if_false, Option.some.injEq] at h
                rw [← h] at hres
                cases hres

theorem parseE164String_digits (s : List Char)
    (hlen : s.length ≤ E164MaximumStringLength)
    (hmin : E164MinimumStringLength ≤ s.length)
    (hpre : stringHasValidE164Prefix s = true)
    (hdig : eachCharIsDigit (s.drop 1) = true) :
    parseE164String s = parseAllDigitRemainder (s.drop 1) := by
  unfold parseE164String
  rw [if_neg (by omega), if_neg (by omega), if_neg (by simp [hpre]),
    if_pos hdig]

theorem parseE164String_ok_shape (s : List Char) (po : ParseOutput)
    (h : parseE164String s = some po)
    (hres : po.result = E164ParseResult.NoParseError) :
    s.length ≤ E164MaximumStringLength ∧ E164MinimumStringLength ≤ s.length ∧
      stringHasValidE164Prefix s = true ∧ eachCharIsDigit (s.drop 1) = true ∧
      parseAllDigitRemainder (s.drop 1) = some po := by
  unfold parseE164String at h
  by_cases h1 : E164MaximumStringLength < s.length
  · rw [if_pos h1] at h
    simp only [Option.some.injEq] at h
    rw [← h] at hres
    cases hres
  · rw [if_neg h1] at h
    by_cases h2 : s.length < E164MinimumStringLength
    · rw [if_pos h2] at h
      simp only [Option.some.injEq] at h
      rw [← h] at hres
      cases hres
    · rw [if_neg h2] at h
      by_cases h3 : stringHasValidE164Prefix s = true
      · rw [if_neg (by simp [h3])] at h
        by_cases h4 : eachCharIsDigit (s.drop 1) = true
        · rw [if_pos h4] at h
          exact ⟨by omega, by omega, h3, h4, h⟩
        · rw [if_neg h4] at h
          simp only [Option.some.injEq] at h
          rw [← h] at hres
          cases hres
      · rw [if_pos (by simpa using h3)] at h
        simp only [Option.some.injEq] at h
        rw [← h] at hres
        cases hres

theorem e164FromString_ok_inv (s : List Char) (v cc : Nat)
    (h : e164FromString s = some (E164FromStringResult.ok v cc)) :
    ∃ po base, parseE164String s = some po ∧
      po.result = E164ParseResult.NoParseError ∧ po.aCode = some cc ∧
      initializeE164WithCountryCode cc = some base ∧
      v = base ||| digitsToNat po.theDigits := by
  unfold e164FromString at h
  cases hp : parseE164String s with
  | none =>
    rw [hp] at h
    simp at h
  | some po =>
    rw [hp] at h
    simp only [Option.bind_eq_bind, Option.some_bind] at h
    by_cases hres : po.result = E164ParseResult.NoParseError
    · rw [if_pos hres] at h
      cases hcode : po.aCode with
      | none =>
        rw [hcode] at h
        simp at h
      | some c =>
        rw [hcode] at h
        simp only [Option.some_bind] at h
        cases hbase : initializeE164WithCountryCode c with
        | none =>
          rw [hbase] at h
          simp at h
        | some base =>
          rw [hbase] at h
          simp only [Option.some_bind, Option.some.injEq,
            E164FromStringResult.ok.injEq] at h
          obtain ⟨hv, hcc⟩ := h
          subst hcc
          exact ⟨po, base, rfl, hres, hcode, hbase, hv.symm⟩
    · rw [if_neg hres] at h
      simp at h

theorem hasValidLength_assigned (n k : Nat) (ty : E164Type)
    (hinv : isInvalidE164Type ty = false)
    (huna : isUnassignedE164Type ty = false) (hk : k ≤ n) :
    hasValidLengthForE164Type n k ty =
      some (decide (minimumSubscriberNumberLength ty ≤ n - k)) := by
  have c1 : E164GeographicAreaMinimumSubscriberNumberLength = 1 := rfl
  have c2 : E164GlobalServiceMinimumSubscriberNumberLength = 1 := rfl
  have c3 : E164NetworkMinimumSubscriberNumberLength = 2 := rfl
  have c4 : E164GroupOfCountriesMinimumSubscriberNumberLength = 2 := rfl
  cases ty with
  | Reserved => simp [isUnassignedE164Type] at huna
  | SpareWithNote => simp [isUnassignedE164Type] at huna
  | SpareWithoutNote => simp [isUnassignedE164Type] at huna
  | Invalid => simp [isInvalidE164Type] at hinv
  | GeographicArea =>
    simp only [hasValidLengthForE164Type, minimumSubscriberNumberLength]
    rw [if_neg (by omega)]
    by_cases h0 : n = k
    · rw [if_pos (by omega)]
      congr 1
      rw [eq_comm, decide_eq_false_iff_not]
      omega
    · rw [if_neg (by omega)]
      congr 1
      rw [decide_eq_decide]
      rw [c1]
      omega
  | GlobalService =>
    simp only [hasValidLengthForE164Type, minimumSubscriberNumberLength]
    rw [if_neg (by omega)]
    by_cases h0 : n = k
    · rw [if_pos (by omega)]
      congr 1
      rw [eq_comm, decide_eq_false_iff_not]
      omega
    · rw [if_neg (by omega)]
      congr 1
      rw [decide_eq_decide]
      rw [c2]
      omega
  | Network =>
    simp only [hasValidLengthForE164Type, minimumSubscriberNumberLength]
    rw [if_neg (by omega)]
    by_cases h0 : n = k
    · rw [if_pos (by omega)]
      congr 1
      rw [eq_comm, decide_eq_false_iff_not]
      omega
    · rw [if_neg (by omega)]
      congr 1
      rw [decide_eq_decide]
      rw [c3]
      omega
  | GroupOfCountries =>
    simp only [hasValidLengthForE164Type, minimumSubscriberNumberLength]
    rw [if_neg (by omega)]
    by_cases h0 : n = k
    · rw [if_pos (by omega)]
      congr 1
      rw [eq_comm, decide_eq_false_iff_not]
      omega
    · rw [if_neg (by omega)]
      congr 1
      rw [decide_eq_decide]
      rw [c4]
      omega

theorem stringHasValidE164Prefix_cons (ds : List Char) :
    stringHasValidE164Prefix ('+' :: ds) = true := by
  simp [stringHasValidE164Prefix, E164_PREFIX]

theorem parseAllDigitRemainder_resolved_aCode (rem : List Char) (k cc : Nat)
    (ty : E164Type)
    (hloop : parseCCLoop rem 1 = some (CCLoopResult.resolved k cc ty))
    (hdig : eachCharIsDigit rem = true) :
    ∃ po, parseAllDigitRemainder rem = some po ∧ po.aCode = some cc := by
  have hk := parseCCLoop_resolved_inv rem k cc ty hdig hloop
  unfold parseAllDigitRemainder
  rw [hloop]
  simp only [Option.bind_eq_bind, Option.some_bind]
  by_cases hinv : isInvalidE164Type ty = true
  · rw [if_pos hinv]
    exact ⟨_, rfl, rfl⟩
  · rw [if_neg hinv]
    by_cases huna : isUnassignedE164Type ty = true
    · rw [if_pos huna]
      exact ⟨_, rfl, rfl⟩
    · rw [if_neg huna]
      rw [if_neg (by omega)]
      rw [hasValidLength_assigned rem.length k ty
        (by simpa using hinv) (by simpa using huna) (by omega)]
      simp only [Option.some_bind]
      by_cases hmin : decide (minimumSubscriberNumberLength ty ≤ rem.length - k) = true
      · rw [if_pos hmin]
        exact ⟨_, rfl, rfl⟩
      · rw [if_neg hmin]
        exact ⟨_, rfl, rfl⟩

/-- C1: for every all-digit input after the '+' prefix (one that passes
the length pre-checks), the country-code resolution loop fixes the
calling code at the first digit-count k in 1..3 whose k-digit prefix
classifies to a type other than Invalid (classification of a prefix
requires at least one digit to follow it), the resolved type is that
prefix's table classification, and the parse output carries that calling
code; if the digits run out before any prefix of at most 3 digits so
classifies, parse returns NoSubscriberNumberDigits. -/
theorem C1_incremental_cc_resolution (s ds : List Char) (k : Nat)
    (hs : s = '+' :: ds) (hdig : eachCharIsDigit ds = true)
    (hlen : s.length ≤ E164MaximumStringLength)
    (hmin : E164MinimumStringLength ≤ s.length) :
    (1 ≤ k → k ≤ 3 → ccPrefixClassifies ds k →
      (∀ j, 1 ≤ j → j < k → ¬ ccPrefixClassifies ds j) →
      (parseCCLoop ds 1 =
        some (CCLoopResult.resolved k (digitsToNat (ds.take k))
          (e164TypeFor.getD (digitsToNat (ds.take k)) E164Type.Invalid)) ∧
        ∃ po, parseE164String s = some po ∧
          po.aCode = some (digitsToNat (ds.take k)))) ∧
    ((∀ j, j ≤ 3 → ¬ ccPrefixClassifies ds j) → ds.length ≤ 3 →
      parseE164String s =
        some ⟨E164ParseResult.NoSubscriberNumberDigits, ds, none⟩) := by
  have hdrop : s.drop 1 = ds := by rw [hs]; rfl
  have hpre : stringHasValidE164Prefix s = true := by
    rw [hs]; exact stringHasValidE164Prefix_cons ds
  have hparse : parseE164String s = parseAllDigitRemainder ds := by
    rw [parseE164String_digits s hlen hmin hpre (by rwa [hdrop]), hdrop]
  constructor
  · intro hk1 hk3 hck hmin'
    obtain ⟨hklen, hkty⟩ := hck
    have hinvalid : ∀ j, 1 ≤ j → j < k →
        e164TypeFor.getD (digitsToNat (ds.take j)) E164Type.Invalid =
          E164Type.Invalid := by
      intro j hj1 hjk
      have hji := hmin' j hj1 hjk
      unfold ccPrefixClassifies at hji
      push_neg at hji
      exact hji (by omega)
    have hloop : parseCCLoop ds 1 =
        some (CCLoopResult.resolved k (digitsToNat (ds.take k))
          (e164TypeFor.getD (digitsToNat (ds.take k)) E164Type.Invalid)) := by
      interval_cases k
      · exact parseCCLoop_resolvesHere ds 1 (by omega) hklen hdig hkty
      · rw [parseCCLoop_stepInvalid ds 1 (by omega) (by omega) hdig
          (hinvalid 1 (by omega) (by omega))]
        exact parseCCLoop_resolvesHere ds 2 (by omega) hklen hdig hkty
      · rw [parseCCLoop_stepInvalid ds 1 (by omega) (by omega) hdig
          (hinvalid 1 (by omega) (by omega))]
        rw [parseCCLoop_stepInvalid ds 2 (by omega) (by omega) hdig
          (hinvalid 2 (by omega) (by omega))]
        exact parseCCLoop_resolvesHere ds 3 (by omega) hklen hdig hkty
    refine ⟨hloop, ?_⟩
    rw [hparse]
    exact parseAllDigitRemainder_resolved_aCode ds k _ _ hloop hdig
  · intro hnone hlen3
    rw [hparse]
    unfold parseAllDigitRemainder
    have hloop : parseCCLoop ds 1 = some CCLoopResult.noSubscriberDigits := by
      by_cases h1 : ds.length ≤ 1
      · exact parseCCLoop_noSub ds 1 (by omega) h1
      · have t1 : e164TypeFor.getD (digitsToNat (ds.take 1)) E164Type.Invalid =
            E164Type.Invalid := by
          have := hnone 1 (by omega)
          unfold ccPrefixClassifies at this
          push_neg at this
          exact this (by omega)
        rw [parseCCLoop_stepInvalid ds 1 (by omega) (by omega) hdig t1]
        by_cases h2 : ds.length ≤ 2
        · exact parseCCLoop_noSub ds 2 (by omega) h2
        · have t2 : e164TypeFor.getD (digitsToNat (ds.take 2)) E164Type.Invalid =
              E164Type.Invalid := by
            have := hnone 2 (by omega)
            unfold ccPrefixClassifies at this
            push_neg at this
            exact this (by omega)
          rw [parseCCLoop_stepInvalid ds 2 (by omega) (by omega) hdig t2]
          exact parseCCLoop_noSub ds 3 (by omega) (by omega)
    rw [hloop]
    simp only [Option.bind_eq_bind, Option.some_bind]

theorem C1_incremental_cc_resolution_witness :
    parseCCLoop ("12025550123".toList) 1 =
      some (CCLoopResult.resolved 1 (digitsToNat (("12025550123".toList).take 1))
        (e164TypeFor.getD (digitsToNat (("12025550123".toList).take 1))
          E164Type.Invalid)) ∧
    ∃ po, parseE164String ("+12025550123".toList) = some po ∧
      po.aCode = some (digitsToNat (("12025550123".toList).take 1)) :=
  (C1_incremental_cc_resolution ("+12025550123".toList) ("12025550123".toList) 1
    rfl (by decide) (by decide) (by decide)).1
    (by decide) (by decide) (by decide)
    (fun j hj1 hj2 => absurd (Nat.lt_of_le_of_lt hj1 hj2) (Nat.lt_irrefl 1))

theorem parseAllDigitRemainder_result_ne_BadFormat (rem : List Char)
    (po : ParseOutput) (h : parseAllDigitRemainder rem = some po) :
    po.result ≠ E164ParseResult.BadFormat := by
  unfold parseAllDigitRemainder at h
  cases hloop : parseCCLoop rem 1 with
  | none =>
    rw [hloop] at h
    simp at h
  | some r =>
    rw [hloop] at h
    simp only [Option.bind_eq_bind, Option.some_bind] at h
    cases r with
    | noSubscriberDigits =>
      simp only [Option.some.injEq] at h
      rw [← h]
      intro hc
      cases hc
    | exhausted cc =>
      simp only [Option.some.injEq] at h
      rw [← h]
      intro hc
      cases hc
    | resolved k cc ty =>
      dsimp only at h
      by_cases hinv : isInvalidE164Type ty = true
      · rw [if_pos hinv] at h
        simp only [Option.some.injEq] at h
        rw [← h]
        intro hc
        cases hc
      · rw [if_neg hinv] at h
        by_cases huna : isUnassignedE164Type ty = true
        · rw [if_pos huna] at h
          simp only [Option.some.injEq] at h
          rw [← h]
          intro hc
          cases hc
        · rw [if_neg huna] at h
          by_cases hlen : rem.length ≤ k
          · rw [if_pos hlen] at h
            simp only [Option.some.injEq] at h
            rw [← h]
            intro hc
            cases hc
          · rw [if_neg hlen] at h
            cases hvl : hasValidLengthForE164Type rem.length k ty with
            | none =>
              rw [hvl] at h
              simp at h
            | some ok =>
              rw [hvl] at h
              simp only [Option.some_bind] at h
              by_cases hok : ok = true
              · rw [if_pos hok] at h
                simp only [Option.some.injEq] at h
                rw [← h]
                intro hc
                cases hc
              · rw [if_neg hok] at h
                simp only [Option.some.injEq] at h
                rw [← h]
                intro hc
                cases hc

/-- C2 counterexample: the claim accepts one interior balanced pair of
parentheses, but the code rejects "+1(202)5550123" with BadFormat. -/
theorem C2_counterexample :
    parseE164String ("+1(202)5550123".toList) =
      some ⟨E164ParseResult.BadFormat, [], none⟩ := by
  decide

/-- C2 amended: between the '+' prefix and the end of the string, parse
accepts only digit characters; any other character anywhere after the
prefix (parentheses and whitespace included) makes parse return
BadFormat, and BadFormat arises exactly then (given the length
pre-checks and the prefix check pass). -/
theorem C2_amended_digits_only (s : List Char) :
    (parseE164String s = some ⟨E164ParseResult.BadFormat, [], none⟩) ↔
      (s.length ≤ E164MaximumStringLength ∧ E164MinimumStringLength ≤ s.length ∧
        stringHasValidE164Prefix s = true ∧
        eachCharIsDigit (s.drop 1) = false) := by
  unfold parseE164String
  by_cases h1 : E164MaximumStringLength < s.length
  · rw [if_pos h1]
    constructor
    · intro h
      simp only [Option.some.injEq] at h
      exact absurd h (by decide)
    · rintro ⟨ha, -⟩
      omega
  · rw [if_neg h1]
    by_cases h2 : s.length < E164MinimumStringLength
    · rw [if_pos h2]
      constructor
      · intro h
        simp only [Option.some.injEq] at h
        exact absurd h (by decide)
      · rintro ⟨-, hb, -⟩
        omega
    · rw [if_neg h2]
      by_cases h3 : stringHasValidE164Prefix s = true
      · rw [if_neg (by simp [h3])]
        by_cases h4 : eachCharIsDigit (s.drop 1) = true
        · rw [if_pos h4]
          constructor
          · intro h
            exact absurd rfl (parseAllDigitRemainder_result_ne_BadFormat _ _ h)
          · rintro ⟨-, -, -, hd⟩
            rw [h4] at hd
            cases hd
        · rw [if_neg h4]
          constructor
          · intro h
            exact ⟨by omega, by omega, h3, by simpa using h4⟩
          · intro h
            rfl
      · rw [if_pos (by simpa using h3)]
        constructor
        · intro h
          simp only [Option.some.injEq] at h
          exact absurd h (by decide)
        · rintro ⟨-, -, hp, -⟩
          exact absurd hp h3

/-- C3: the claim (and the code's own error hint "E164 values must have
at most 15 digits") says a digit sequence longer than 15 digits is
rejected with StringTooLong, but the too-long check compares against
`E164MaximumStringLength` (22 characters), so the 16-digit input
"+1234567890123456" parses successfully and the resulting value's digit
field exceeds 999_999_999_999_999 (it overflows into the
country-code-length bits). -/
theorem C3_sixteen_digit_input_parses :
    e164FromString ("+1234567890123456".toList) =
      some (E164FromStringResult.ok 5738167517493952 1) ∧
    999999999999999 < digitsToNat ("1234567890123456".toList) ∧
    E164_NUMBER_MASK < 5738167517493952 := by
  decide

/-- C4: for an all-digit input whose calling code resolves to an
assigned type, parse succeeds precisely when the subscriber-number
length (total digits minus calling-code digits) reaches the type's
minimum (1 for GeographicArea/GlobalService, 2 for
Network/GroupOfCountries), and returns TypeLengthMismatch when the
minimum is violated. -/
theorem C4_minimum_subscriber_length (s ds : List Char) (k cc : Nat)
    (ty : E164Type)
    (hs : s = '+' :: ds) (hdig : eachCharIsDigit ds = true)
    (hlen : s.length ≤ E164MaximumStringLength)
    (hmin : E164MinimumStringLength ≤ s.length)
    (hres : parseCCLoop ds 1 = some (CCLoopResult.resolved k cc ty))
    (hinv : isInvalidE164Type ty = false)
    (huna : isUnassignedE164Type ty = false) :
    (parseE164String s = some ⟨E164ParseResult.NoParseError, ds, some cc⟩ ↔
      minimumSubscriberNumberLength ty ≤ ds.length - k) ∧
    (ds.length - k < minimumSubscriberNumberLength ty →
      parseE164String s =
        some ⟨E164ParseResult.TypeLengthMismatch, ds, some cc⟩) := by
  have hdrop : s.drop 1 = ds := by rw [hs]; rfl
  have hpre : stringHasValidE164Prefix s = true := by
    rw [hs]; exact stringHasValidE164Prefix_cons ds
  have hparse : parseE164String s = parseAllDigitRemainder ds := by
    rw [parseE164String_digits s hlen hmin hpre (by rwa [hdrop]), hdrop]
  obtain ⟨hk1, hk3, hklen, -, -, -⟩ :=
    parseCCLoop_resolved_inv ds k cc ty hdig hres
  have hbody : parseAllDigitRemainder ds =
      (if decide (minimumSubscriberNumberLength ty ≤ ds.length - k) = true then
        some ⟨E164ParseResult.NoParseError, ds, some cc⟩
      else
        some ⟨E164ParseResult.TypeLengthMismatch, ds, some cc⟩) := by
    unfold parseAllDigitRemainder
    rw [hres]
    simp only [Option.bind_eq_bind, Option.some_bind]
    rw [if_neg (by simp [hinv]), if_neg (by simp [huna]),
      if_neg (by omega)]
    rw [hasValidLength_assigned ds.length k ty hinv huna (by omega)]
    simp only [Option.some_bind]
  rw [hparse, hbody]
  by_cases hd : minimumSubscriberNumberLength ty ≤ ds.length - k
  · rw [if_pos (by simpa using hd)]
    constructor
    · exact ⟨fun _ => hd, fun _ => rfl⟩
    · intro hlt
      omega
  · rw [if_neg (by simpa using hd)]
    constructor
    · constructor
      · intro h
        simp at h
      · intro h
        exact absurd h hd
    · intro hlt
      rfl

theorem C4_minimum_subscriber_length_witness :
    parseE164String ("+8701".toList) =
      some ⟨E164ParseResult.TypeLengthMismatch, "8701".toList, some 870⟩ :=
  (C4_minimum_subscriber_length ("+8701".toList) ("8701".toList) 3 870
    E164Type.Network rfl (by decide) (by decide) (by decide) (by decide)
    (by decide) (by decide)).2 (by decide)

theorem E164_NUMBER_MASK_eq : E164_NUMBER_MASK = 2 ^ 50 - 1 := by decide

theorem lor_low_mask (m d : Nat) (hm : m % 2 ^ 50 = 0) (hd : d < 2 ^ 50) :
    (m ||| d) &&& E164_NUMBER_MASK = d := by
  apply Nat.eq_of_testBit_eq
  intro i
  rw [Nat.testBit_land, Nat.testBit_lor, E164_NUMBER_MASK_eq,
    Nat.testBit_two_pow_sub_one]
  by_cases hi : i < 50
  · have hmb : m.testBit i = false := by
      have h0 := Nat.testBit_mod_two_pow m 50 i
      rw [hm, Nat.zero_testBit] at h0
      simp only [hi, decide_True, Bool.true_and] at h0
      exact h0.symm
    simp [hi, hmb]
  · have hdb : d.testBit i = false :=
      Nat.testBit_lt_two_pow
        (lt_of_lt_of_le hd (Nat.pow_le_pow_right (by omega) (by omega)))
    simp [hi, hdb]

theorem lor_mod_two_pow_50 (m d : Nat) (hm : m % 2 ^ 50 = 0) (hd : d < 2 ^ 50) :
    (m ||| d) % 2 ^ 50 = d := by
  apply Nat.eq_of_testBit_eq
  intro i
  rw [Nat.testBit_mod_two_pow, Nat.testBit_lor]
  by_cases hi : i < 50
  · have hmb : m.testBit i = false := by
      have h0 := Nat.testBit_mod_two_pow m 50 i
      rw [hm, Nat.zero_testBit] at h0
      simp only [hi, decide_True, Bool.true_and] at h0
      exact h0.symm
    simp [hi, hmb]
  · have hdb : d.testBit i = false :=
      Nat.testBit_lt_two_pow
        (lt_of_lt_of_le hd (Nat.pow_le_pow_right (by omega) (by omega)))
    simp [hi, hdb]

theorem lor_shiftRight_high (m d n : Nat) (hd : d < 2 ^ 50) (hn : 50 ≤ n) :
    (m ||| d) >>> n = m >>> n := by
  apply Nat.eq_of_testBit_eq
  intro i
  rw [Nat.testBit_shiftRight, Nat.testBit_shiftRight, Nat.testBit_lor]
  have hdb : d.testBit (n + i) = false :=
    Nat.testBit_lt_two_pow
      (lt_of_lt_of_le hd (Nat.pow_le_pow_right (by omega) (by omega)))
  simp [hdb]

theorem lor_lt_two_pow_56 (m d : Nat) (hm : m < 2 ^ 56) (hd : d < 2 ^ 56) :
    (m ||| d) < 2 ^ 56 := by
  have hext : (m ||| d) % 2 ^ 56 = m ||| d := by
    apply Nat.eq_of_testBit_eq
    intro i
    rw [Nat.testBit_mod_two_pow, Nat.testBit_lor]
    by_cases hi : i < 56
    · simp [hi]
    · have h1 : m.testBit i = false :=
        Nat.testBit_lt_two_pow
          (lt_of_lt_of_le hm (Nat.pow_le_pow_right (by omega) (by omega)))
      have h2 : d.testBit i = false :=
        Nat.testBit_lt_two_pow
          (lt_of_lt_of_le hd (Nat.pow_le_pow_right (by omega) (by omega)))
      simp [hi, h1, h2]
  rw [← hext]
  exact Nat.mod_lt _ (by norm_num)

theorem decChars_lt10 (n : Nat) (h : n < 10) :
    decChars n = [Char.ofNat ('0'.toNat + n)] := by
  cases n with
  | zero => rfl
  | succ m =>
    unfold decChars decCharsGo
    rw [if_pos h]

theorem decCharsGo_eq (n : Nat) : ∀ (f : Nat) (acc : List Char), n ≤ f →
    decCharsGo f n acc = decChars n ++ acc := by
  induction n using Nat.strong_induction_on with
  | _ n ih =>
    intro f acc hf
    match f with
    | 0 =>
      have hn : n = 0 := by omega
      subst hn
      rfl
    | f' + 1 =>
      by_cases h10 : n < 10
      · have h1 : decCharsGo (f' + 1) n acc = Char.ofNat ('0'.toNat + n) :: acc := by
          unfold decCharsGo
          rw [if_pos h10]
        rw [h1, decChars_lt10 n h10]
        rfl
      · push_neg at h10
        have hstep : decCharsGo (f' + 1) n acc =
            decCharsGo f' (n / 10) (Char.ofNat ('0'.toNat + n % 10) :: acc) := by
          conv_lhs => unfold decCharsGo
          rw [if_neg (by omega)]
        have hdiv : n / 10 < n := Nat.div_lt_self (by omega) (by omega)
        rw [hstep, ih (n / 10) hdiv f' _ (by omega)]
        have hrhs : decChars n =
            decChars (n / 10) ++ [Char.ofNat ('0'.toNat + n % 10)] := by
          cases hn : n with
          | zero => omega
          | succ n'' =>
            unfold decChars
            conv_lhs => unfold decCharsGo
            rw [if_neg (by omega)]
            rw [ih ((n'' + 1) / 10) (by omega) n'' _ (by omega)]
            rfl
        rw [hrhs, List.append_assoc]
        rfl

theorem decChars_ge10 (n : Nat) (h : 10 ≤ n) :
    decChars n = decChars (n / 10) ++ [Char.ofNat ('0'.toNat + n % 10)] := by
  cases hn : n with
  | zero => omega
  | succ n'' =>
    unfold decChars
    conv_lhs => unfold decCharsGo
    rw [if_neg (by omega)]
    rw [decCharsGo_eq ((n'' + 1) / 10) n'' _ (by omega)]
    rfl

theorem digitsFold_ge (s : List Char) (acc : Nat) :
    acc * 10 ^ s.length ≤
      s.foldl (fun acc c => 10 * acc + (c.toNat - '0'.toNat)) acc := by
  induction s generalizing acc with
  | nil => simp
  | cons c rest ih =>
    simp only [List.foldl_cons, List.length_cons, pow_succ]
    calc acc * (10 ^ rest.length * 10) = (10 * acc) * 10 ^ rest.length := by ring
      _ ≤ (10 * acc + (c.toNat - '0'.toNat)) * 10 ^ rest.length :=
        Nat.mul_le_mul_right _ (by omega)
      _ ≤ _ := ih _

theorem digitsToNat_head_lower (c : Char) (rest : List Char) :
    (c.toNat - '0'.toNat) * 10 ^ rest.length ≤ digitsToNat (c :: rest) := by
  unfold digitsToNat
  simp only [List.foldl_cons]
  have h := digitsFold_ge rest (10 * 0 + (c.toNat - '0'.toNat))
  simpa using h

theorem digitsToNat_pos (c : Char) (rest : List Char)
    (hc : isdigitChar c = true) (h0 : c ≠ '0') :
    1 ≤ digitsToNat (c :: rest) := by
  have h := digitsToNat_head_lower c rest
  have hge : 1 ≤ c.toNat - '0'.toNat := by
    unfold isdigitChar at hc
    simp only [Bool.and_eq_true, decide_eq_true_eq] at hc
    have h1 : '0'.toNat ≤ c.toNat := hc.1
    have h2 : c.toNat ≤ 57 := hc.2
    have h0' : c.toNat ≠ 48 := by
      intro hcontra
      apply h0
      have : Char.ofNat c.toNat = Char.ofNat 48 := by rw [hcontra]
      rw [Char.ofNat_toNat] at this
      exact this
    have h48 : '0'.toNat = 48 := rfl
    omega
  have hpow : 1 ≤ 10 ^ rest.length := Nat.one_le_pow _ _ (by omega)
  have := Nat.mul_le_mul hge hpow
  omega

theorem eachCharIsDigit_append (s t : List Char) :
    eachCharIsDigit (s ++ t) = true ↔
      (eachCharIsDigit s = true ∧ eachCharIsDigit t = true) := by
  simp only [eachCharIsDigit_iff_all]
  constructor
  · intro h
    exact ⟨fun c hc => h c (List.mem_append_left t hc),
      fun c hc => h c (List.mem_append_right s hc)⟩
  · rintro ⟨h1, h2⟩ c hc
    rcases List.mem_append.mp hc with h | h
    · exact h1 c h
    · exact h2 c h

theorem digitChar_ofNat_inv (c : Char) (hc : isdigitChar c = true) :
    Char.ofNat ('0'.toNat + (c.toNat - '0'.toNat)) = c := by
  unfold isdigitChar at hc
  simp only [Bool.and_eq_true, decide_eq_true_eq] at hc
  have h1 : '0'.toNat ≤ c.toNat := hc.1
  have heq : '0'.toNat + (c.toNat - '0'.toNat) = c.toNat := by omega
  rw [heq, Char.ofNat_toNat]

theorem decChars_digitsToNat (ds : List Char) (hne : ds ≠ [])
    (hdig : eachCharIsDigit ds = true) (hhead : headChar ds ≠ '0') :
    decChars (digitsToNat ds) = ds := by
  induction ds using List.reverseRecOn with
  | nil => exact absurd rfl hne
  | append_singleton init c ih =>
    have hsplit := (eachCharIsDigit_append init [c]).mp hdig
    have hc : isdigitChar c = true := by
      have := hsplit.2
      unfold eachCharIsDigit at this
      by_cases h : isdigitChar c = true
      · exact h
      · rw [if_neg h] at this
        cases this
    have hcle : c.toNat - '0'.toNat ≤ 9 := by
      unfold isdigitChar at hc
      simp only [Bool.and_eq_true, decide_eq_true_eq] at hc
      have h2 : c.toNat ≤ 57 := hc.2
      have h48 : '0'.toNat = 48 := rfl
      omega
    have hval : digitsToNat (init ++ [c]) =
        10 * digitsToNat init + (c.toNat - '0'.toNat) := by
      unfold digitsToNat
      rw [List.foldl_append]
      rfl
    cases init with
    | nil =>
      rw [hval]
      simp only [digitsToNat, List.foldl_nil]
      rw [decChars_lt10 _ (by omega)]
      simp only [Nat.mul_zero, Nat.zero_add]
      rw [digitChar_ofNat_inv c hc]
      rfl
    | cons d rest =>
      have hd : d ≠ '0' := by
        intro hcontra
        apply hhead
        subst hcontra
        rfl
      have hddig : isdigitChar d = true := by
        have := hsplit.1
        unfold eachCharIsDigit at this
        by_cases h : isdigitChar d = true
        · exact h
        · rw [if_neg h] at this
          cases this
      have hpos : 1 ≤ digitsToNat (d :: rest) := digitsToNat_pos d rest hddig hd
      rw [hval]
      have h10 : 10 ≤ 10 * digitsToNat (d :: rest) + (c.toNat - '0'.toNat) := by
        omega
      rw [decChars_ge10 _ h10]
      have hdiv : (10 * digitsToNat (d :: rest) + (c.toNat - '0'.toNat)) / 10 =
          digitsToNat (d :: rest) := by
        omega
      have hmod : (10 * digitsToNat (d :: rest) + (c.toNat - '0'.toNat)) % 10 =
          c.toNat - '0'.toNat := by
        omega
      rw [hdiv, hmod, digitChar_ofNat_inv c hc]
      rw [ih (by simp) hsplit.1 (by simpa [headChar] using hd)]

theorem initializeE164_props (cc base : Nat)
    (h : initializeE164WithCountryCode cc = some base) :
    base % 2 ^ 50 = 0 ∧ base < 2 ^ 56 := by
  unfold initializeE164WithCountryCode at h
  by_cases h1 : isOneDigitE164CountryCode cc = true
  · rw [if_pos h1] at h
    simp only [Option.some.injEq] at h
    subst h
    decide
  · rw [if_neg h1] at h
    by_cases h2 : isTwoDigitE164CountryCode cc = true
    · rw [if_pos h2] at h
      simp only [Option.some.injEq] at h
      subst h
      decide
    · rw [if_neg h2] at h
      by_cases h3 : isThreeDigitE164CountryCode cc = true
      · rw [if_pos h3] at h
        cases hty : e164TypeForCountryCode cc with
        | none =>
          rw [hty] at h
          simp at h
        | some ty =>
          rw [hty] at h
          simp only [Option.bind_eq_bind, Option.some_bind] at h
          cases ty <;>
            simp only [Option.some_bind, Option.none_bind,
              Option.some.injEq] at h <;>
            first
              | exact absurd h (by simp)
              | (subst h; decide)
      · rw [if_neg h3] at h
        simp at h

/-- C5 counterexample: the 16-digit input "+2251799813685248" parses
successfully, but its digit value overflows the 50-bit digit field, so
the raw rendering of the resulting packed value is "+0", which does not
re-parse (StringTooShort) — the round trip fails. -/
theorem C5_counterexample :
    e164FromString ("+2251799813685248".toList) =
      some (E164FromStringResult.ok 7881299347898368 225) ∧
    stringFromE164 (E164MaximumStringLength + 1) 7881299347898368 =
      "+0".toList ∧
    e164FromString ("+0".toList) =
      some (E164FromStringResult.err E164ParseResult.StringTooShort none) := by
  decide

theorem e164FromString_ok_analysis (s ds : List Char) (v cc : Nat)
    (hs : s = '+' :: ds)
    (hok : e164FromString s = some (E164FromStringResult.ok v cc)) :
    ∃ k ty base,
      eachCharIsDigit ds = true ∧
      parseCCLoop ds 1 = some (CCLoopResult.resolved k cc ty) ∧
      isInvalidE164Type ty = false ∧ isUnassignedE164Type ty = false ∧
      1 ≤ k ∧ k ≤ 3 ∧ k < ds.length ∧
      cc = digitsToNat (ds.take k) ∧
      ty = e164TypeFor.getD cc E164Type.Invalid ∧
      headChar ds ≠ '0' ∧ ds ≠ [] ∧
      initializeE164WithCountryCode cc = some base ∧
      v = base ||| digitsToNat ds := by
  obtain ⟨po, base, hp, hres, hcode, hbase, hv⟩ := e164FromString_ok_inv s v cc hok
  obtain ⟨hlen, hmin, hpre, hdig, hall⟩ := parseE164String_ok_shape s po hp hres
  have hdrop : s.drop 1 = ds := by rw [hs]; rfl
  rw [hdrop] at hdig hall
  obtain ⟨k, cc', ty, hloop, hinv, huna, hklen, hvalid, hpo⟩ :=
    parseAllDigitRemainder_ok_inv ds po hall hres
  have hcc' : cc' = cc := by
    rw [hpo] at hcode
    simpa using hcode
  rw [hcc'] at hloop hpo
  have hdigs : po.theDigits = ds := by rw [hpo]
  rw [hdigs] at hv
  obtain ⟨hk1, hk3, -, hccval, hty, hmin'⟩ :=
    parseCCLoop_resolved_inv ds k cc ty hdig hloop
  have hdsne : ds ≠ [] := by
    intro hnil
    rw [hnil] at hklen
    simp at hklen
  have hR : e164TypeFor.getD 0 E164Type.Invalid = E164Type.Reserved := rfl
  have hhead : headChar ds ≠ '0' := by
    intro hcontra
    have htake1 : digitsToNat (ds.take 1) = 0 := by
      cases ds with
      | nil => exact absurd rfl hdsne
      | cons d rest =>
        simp only [headChar] at hcontra
        subst hcontra
        rfl
    by_cases hk : k = 1
    · subst hk
      rw [htake1] at hccval
      rw [hccval] at hty
      rw [hR] at hty
      rw [hty] at huna
      simp [isUnassignedE164Type] at huna
    · have hlt := hmin' 1 (le_refl 1) (by omega)
      rw [htake1, hR] at hlt
      cases hlt
  exact ⟨k, ty, base, hdig, hloop, hinv, huna, hk1, hk3, hklen, hccval, hty,
    hhead, hdsne, hbase, hv⟩

/-- C5 amended: for every string that parses successfully to an E164
value and carries at most 15 digits (the documented maximum), rendering
the value's raw string form reproduces the input exactly, and re-parsing
the rendered string succeeds with the identical packed value and calling
code. -/
theorem C5_roundtrip_amended (s ds : List Char) (v cc : Nat)
    (hs : s = '+' :: ds) (h15 : ds.length ≤ E164MaximumNumberOfDigits)
    (hok : e164FromString s = some (E164FromStringResult.ok v cc)) :
    stringFromE164 (E164MaximumStringLength + 1) v = s ∧
    e164FromString (stringFromE164 (E164MaximumStringLength + 1) v) =
      some (E164FromStringResult.ok v cc) := by
  obtain ⟨k, ty, base, hdig, hloop, hinv, huna, hk1, hk3, hklen, hccval, hty,
    hhead, hdsne, hbase, hv⟩ := e164FromString_ok_analysis s ds v cc hs hok
  have hdlt : digitsToNat ds < 2 ^ 50 := by
    have h1 := digitsToNat_lt_pow ds hdig
    have h2 : (10 : Nat) ^ ds.length ≤ 10 ^ 15 := by
      apply Nat.pow_le_pow_right (by omega)
      simpa [E164MaximumNumberOfDigits] using h15
    have h3 : (10 : Nat) ^ 15 < 2 ^ 50 := by norm_num
    omega
  obtain ⟨hbm, hblt⟩ := initializeE164_props cc base hbase
  have hmask : v &&& E164_NUMBER_MASK = digitsToNat ds := by
    rw [hv]
    exact lor_low_mask base (digitsToNat ds) hbm hdlt
  have hrender : stringFromE164 (E164MaximumStringLength + 1) v = s := by
    unfold stringFromE164
    rw [hmask, decChars_digitsToNat ds hdsne hdig hhead]
    rw [hs]
    apply List.take_of_length_le
    have : ds.length ≤ 15 := by
      simpa [E164MaximumNumberOfDigits] using h15
    simp only [List.length_cons, E164MaximumStringLength,
      E164MaximumRawStringLength, E164MaximumNumberOfDigits,
      E164PrefixStringLength]
    omega
  exact ⟨hrender, by rw [hrender]; exact hok⟩

theorem C5_roundtrip_amended_witness :
    stringFromE164 (E164MaximumStringLength + 1) 5629511559763243 =
      "+12025550123".toList ∧
    e164FromString (stringFromE164 (E164MaximumStringLength + 1)
        5629511559763243) =
      some (E164FromStringResult.ok 5629511559763243 1) :=
  C5_roundtrip_amended ("+12025550123".toList) ("12025550123".toList)
    5629511559763243 1 rfl (by decide) (by decide)

/-- C6: the claim requires compare-equality to coincide with
hash-equality, but `e164_hash` feeds all 64 bits of the datum to
`hash_any` while `e164Comparison` masks out everything above the
country-code-length field: the values 0 and 2^55 (which differ only in a
type-mask bit outside `E164_NUMBER_AND_CC_LENGTH_MASK`) compare equal
yet hash differently. -/
theorem C6_hash_depends_on_padding_bits :
    e164Comparison 0 (2 ^ 55) = 0 ∧ e164_hash 0 ≠ e164_hash (2 ^ 55) := by
  decide

theorem digit_sub_ge_one (c : Char) (hc : isdigitChar c = true)
    (h0 : c ≠ '0') : 1 ≤ c.toNat - '0'.toNat := by
  unfold isdigitChar at hc
  simp only [Bool.and_eq_true, decide_eq_true_eq] at hc
  have h1 : '0'.toNat ≤ c.toNat := hc.1
  have h2 : c.toNat ≤ 57 := hc.2
  have h0' : c.toNat ≠ 48 := by
    intro hcontra
    apply h0
    have h3 : Char.ofNat c.toNat = Char.ofNat 48 := by rw [hcontra]
    rw [Char.ofNat_toNat] at h3
    exact h3
  have h48 : '0'.toNat = 48 := rfl
  omega

theorem small_cc_assigned_geo (cc : Nat) (h99 : cc ≤ 99)
    (hinv : isInvalidE164Type (e164TypeFor.getD cc E164Type.Invalid) = false)
    (huna : isUnassignedE164Type (e164TypeFor.getD cc E164Type.Invalid) = false) :
    e164TypeFor.getD cc E164Type.Invalid = E164Type.GeographicArea := by
  interval_cases cc <;>
    first
      | rfl
      | exact absurd hinv (by decide)
      | exact absurd huna (by decide)

/-- C10: every E164 value produced by a successful parse of an input
with at most 15 digits satisfies the representation invariant: the
country-code-length field (bits 50..51) holds the digit-count k (1, 2 or
3) at which the calling code resolved; bits 52..55 hold exactly one set
bit and it is the mask bit of the table classification of the resolved
calling code; no bit above bit 55 is set; the low 50 bits hold the full
digit value, whose leading k digits are the calling code. -/
theorem C10_representation_invariant (s ds : List Char) (v cc : Nat)
    (hs : s = '+' :: ds) (h15 : ds.length ≤ E164MaximumNumberOfDigits)
    (hok : e164FromString s = some (E164FromStringResult.ok v cc)) :
    ∃ k ty, parseCCLoop ds 1 = some (CCLoopResult.resolved k cc ty) ∧
      1 ≤ k ∧ k ≤ 3 ∧
      (v >>> E164_CC_LENGTH_OFFSET) % 4 = k ∧
      (v >>> 52) % 16 = typeMaskNibble (e164TypeFor.getD cc E164Type.Invalid) ∧
      ((v >>> 52) % 16 = 1 ∨ (v >>> 52) % 16 = 2 ∨ (v >>> 52) % 16 = 4 ∨
        (v >>> 52) % 16 = 8) ∧
      v < 2 ^ 56 ∧
      v % 2 ^ 50 = digitsToNat ds ∧
      digitsToNat (ds.take k) = cc := by
  obtain ⟨k, ty, base, hdig, hloop, hinv, huna, hk1, hk3, hklen, hccval, hty,
    hhead, hdsne, hbase, hv⟩ := e164FromString_ok_analysis s ds v cc hs hok
  have hdlt : digitsToNat ds < 2 ^ 50 := by
    have h1 := digitsToNat_lt_pow ds hdig
    have h2 : (10 : Nat) ^ ds.length ≤ 10 ^ 15 := by
      apply Nat.pow_le_pow_right (by omega)
      simpa [E164MaximumNumberOfDigits] using h15
    have h3 : (10 : Nat) ^ 15 < 2 ^ 50 := by norm_num
    omega
  obtain ⟨hbm, hblt⟩ := initializeE164_props cc base hbase
  have hv56 : v < 2 ^ 56 := by
    rw [hv]
    exact lor_lt_two_pow_56 base _ hblt (lt_trans hdlt (by norm_num))
  have hvmod : v % 2 ^ 50 = digitsToNat ds := by
    rw [hv]
    exact lor_mod_two_pow_50 base _ hbm hdlt
  have hshift50 : v >>> 50 = base >>> 50 := by
    rw [hv]
    exact lor_shiftRight_high base _ 50 hdlt (le_refl 50)
  have hshift52 : v >>> 52 = base >>> 52 := by
    rw [hv]
    exact lor_shiftRight_high base _ 52 hdlt (by omega)
  rw [hty] at hinv huna
  obtain ⟨d, rest, hds⟩ : ∃ d rest, ds = d :: rest := by
    cases ds with
    | nil => exact absurd rfl hdsne
    | cons d rest => exact ⟨d, rest, rfl⟩
  have hdigd : isdigitChar d = true := by
    rw [hds] at hdig
    unfold eachCharIsDigit at hdig
    by_cases h : isdigitChar d = true
    · exact h
    · rw [if_neg h] at hdig
      cases hdig
  have hdne : d ≠ '0' := by
    rw [hds] at hhead
    simpa [headChar] using hhead
  have hlow : 10 ^ (k - 1) ≤ cc := by
    obtain ⟨k', hk'⟩ : ∃ k', k = k' + 1 := ⟨k - 1, by omega⟩
    subst hk'
    show 10 ^ (k' + 1 - 1) ≤ cc
    have hkk : k' + 1 - 1 = k' := rfl
    rw [hkk]
    rw [hds] at hccval hklen
    have htake : (d :: rest).take (k' + 1) = d :: rest.take k' := rfl
    rw [htake] at hccval
    have hlen' : (rest.take k').length = k' := by
      simp only [List.length_take]
      simp only [List.length_cons] at hklen
      omega
    have hlower := digitsToNat_head_lower d (rest.take k')
    rw [hlen'] at hlower
    have hge1 := digit_sub_ge_one d hdigd hdne
    rw [hccval]
    calc 10 ^ k' = 1 * 10 ^ k' := (one_mul _).symm
      _ ≤ (d.toNat - '0'.toNat) * 10 ^ k' := Nat.mul_le_mul_right _ hge1
      _ ≤ _ := hlower
  have hup : cc < 10 ^ k := by
    rw [hccval]
    have h1 := digitsToNat_lt_pow (ds.take k) (eachCharIsDigit_take k ds hdig)
    have h2 : (ds.take k).length = k := by
      simp only [List.length_take]
      omega
    rw [h2] at h1
    exact h1
  unfold initializeE164WithCountryCode at hbase
  interval_cases k
  · -- k = 1: one-digit country code, GeographicArea mask
    have h9 : cc ≤ 9 := by
      simp only [pow_one] at hup
      omega
    rw [if_pos (by simp [isOneDigitE164CountryCode]; omega)] at hbase
    simp only [Option.some.injEq] at hbase
    have hgeo := small_cc_assigned_geo cc (by omega) hinv huna
    refine ⟨1, ty, hloop, by omega, by omega, ?_, ?_, ?_, hv56, hvmod,
      hccval.symm⟩
    · simp only [E164_CC_LENGTH_OFFSET]
      rw [hshift50, ← hbase]
      decide
    · rw [hgeo, hshift52, ← hbase]
      decide
    · rw [hshift52, ← hbase]
      left
      decide
  · -- k = 2: two-digit country code, GeographicArea mask
    have h99 : 10 ≤ cc ∧ cc ≤ 99 := by
      constructor
      · simpa using hlow
      · have : cc < 100 := by simpa using hup
        omega
    rw [if_neg (by simp [isOneDigitE164CountryCode]; omega)] at hbase
    rw [if_pos (by simp [isTwoDigitE164CountryCode]; omega)] at hbase
    simp only [Option.some.injEq] at hbase
    have hgeo := small_cc_assigned_geo cc (by omega) hinv huna
    refine ⟨2, ty, hloop, by omega, by omega, ?_, ?_, ?_, hv56, hvmod,
      hccval.symm⟩
    · simp only [E164_CC_LENGTH_OFFSET]
      rw [hshift50, ← hbase]
      decide
    · rw [hgeo, hshift52, ← hbase]
      decide
    · rw [hshift52, ← hbase]
      left
      decide
  · -- k = 3: three-digit country code, type mask from the table
    have h999 : 100 ≤ cc ∧ cc ≤ 999 := by
      constructor
      · simpa using hlow
      · have : cc < 1000 := by simpa using hup
        omega
    rw [if_neg (by simp [isOneDigitE164CountryCode]; omega)] at hbase
    rw [if_neg (by simp [isTwoDigitE164CountryCode]; omega)] at hbase
    rw [if_pos (by simp [isThreeDigitE164CountryCode]; omega)] at hbase
    rw [e164TypeForCountryCode_le_999 cc (by omega)] at hbase
    rw [← hty] at hbase
    simp only [Option.bind_eq_bind, Option.some_bind] at hbase
    refine ⟨3, ty, hloop, by omega, by omega, ?_, ?_, ?_, hv56, hvmod,
      hccval.symm⟩
    all_goals
      cases ty with
      | GeographicArea =>
        simp only [Option.some_bind, Option.some.injEq] at hbase
        first
          | (simp only [E164_CC_LENGTH_OFFSET]
             rw [hshift50, ← hbase]
             decide)
          | (rw [← hty, hshift52, ← hbase]
             decide)
          | (rw [hshift52, ← hbase]
             left
             decide)
      | GlobalService =>
        simp only [Option.some_bind, Option.some.injEq] at hbase
        first
          | (simp only [E164_CC_LENGTH_OFFSET]
             rw [hshift50, ← hbase]
             decide)
          | (rw [← hty, hshift52, ← hbase]
             decide)
          | (rw [hshift52, ← hbase]
             right
             left
             decide)
      | Network =>
        simp only [Option.some_bind, Option.some.injEq] at hbase
        first
          | (simp only [E164_CC_LENGTH_OFFSET]
             rw [hshift50, ← hbase]
             decide)
          | (rw [← hty, hshift52, ← hbase]
             decide)
          | (rw [hshift52, ← hbase]
             right
             right
             left
             decide)
      | GroupOfCountries =>
        simp only [Option.some_bind, Option.some.injEq] at hbase
        first
          | (simp only [E164_CC_LENGTH_OFFSET]
             rw [hshift50, ← hbase]
             decide)
          | (rw [← hty, hshift52, ← hbase]
             decide)
          | (rw [hshift52, ← hbase]
             right
             right
             right
             decide)
      | Reserved => simp at hbase
      | SpareWithNote => simp at hbase
      | SpareWithoutNote => simp at hbase
      | Invalid => simp at hbase

theorem C10_representation_invariant_witness :
    ∃ k ty, parseCCLoop ("12025550123".toList) 1 =
        some (CCLoopResult.resolved k 1 ty) ∧
      1 ≤ k ∧ k ≤ 3 ∧
      ((5629511559763243 : Nat) >>> E164_CC_LENGTH_OFFSET) % 4 = k ∧
      ((5629511559763243 : Nat) >>> 52) % 16 =
        typeMaskNibble (e164TypeFor.getD 1 E164Type.Invalid) ∧
      (((5629511559763243 : Nat) >>> 52) % 16 = 1 ∨
        ((5629511559763243 : Nat) >>> 52) % 16 = 2 ∨
        ((5629511559763243 : Nat) >>> 52) % 16 = 4 ∨
        ((5629511559763243 : Nat) >>> 52) % 16 = 8) ∧
      (5629511559763243 : Nat) < 2 ^ 56 ∧
      (5629511559763243 : Nat) % 2 ^ 50 = digitsToNat ("12025550123".toList) ∧
      digitsToNat (("12025550123".toList).take k) = 1 :=
  C10_representation_invariant ("+12025550123".toList) ("12025550123".toList)
    5629511559763243 1 rfl (by decide) (by decide)

/-- C8: the Area-Code Resolver never fails: whenever the calling code's
type does not support area codes, or no table is installed, or the
installed table has no rule for the calling code, it returns area-code
length 0 (for every number and country-code length). -/
theorem C8_resolver_inapplicable_returns_zero
    (currentCodesInfo : Option E164AreaCodesInfo) (aNumber cc ccLen : Nat)
    (hcc : cc ≤ 999)
    (h : e164TypeSupportsAreaCode (e164TypeFor.getD cc E164Type.Invalid) = false ∨
      currentCodesInfo = none ∨
      (∀ info, currentCodesInfo = some info →
        info.formats.find? (fun f => f.countryCode = cc) = none)) :
    e164AreaCodeLengthOf currentCodesInfo aNumber cc ccLen = some 0 := by
  unfold e164AreaCodeLengthOf
  have hsup : e164CountryCodeSupportsAreaCode cc =
      some (e164TypeSupportsAreaCode (e164TypeFor.getD cc E164Type.Invalid)) := by
    unfold e164CountryCodeSupportsAreaCode
    rw [e164TypeForCountryCode_le_999 cc hcc]
    rfl
  rw [hsup]
  simp only [Option.bind_eq_bind, Option.some_bind]
  rcases h with hunsup | hnone | hnorule
  · rw [hunsup]
    cases currentCodesInfo <;> rfl
  · rw [hnone]
    cases e164TypeSupportsAreaCode (e164TypeFor.getD cc E164Type.Invalid) <;> rfl
  · cases hcur : currentCodesInfo with
    | none =>
      cases e164TypeSupportsAreaCode (e164TypeFor.getD cc E164Type.Invalid) <;> rfl
    | some info =>
      cases hsupb : e164TypeSupportsAreaCode (e164TypeFor.getD cc E164Type.Invalid) with
      | false => rfl
      | true =>
        dsimp only
        rw [hnorule info hcur]

theorem C8_resolver_inapplicable_returns_zero_witness :
    e164AreaCodeLengthOf none 8005551234 800 3 = some 0 :=
  C8_resolver_inapplicable_returns_zero none 8005551234 800 3 (by decide)
    (Or.inr (Or.inl rfl))

theorem digit_ne_comma (c : Char) (hc : isdigitChar c = true) : ¬ (c = ',') := by
  intro h
  rw [h] at hc
  exact absurd hc (by decide)

theorem digit_ne_nul (c : Char) (hc : isdigitChar c = true) : ¬ (c = nulChar) := by
  intro h
  rw [h] at hc
  exact absurd hc (by decide)

theorem dropWhile_append_all (pred : Char → Bool) :
    ∀ (l r : List Char), (∀ c ∈ l, pred c = true) →
      (l ++ r).dropWhile pred = r.dropWhile pred := by
  intro l
  induction l with
  | nil => intro r h; rfl
  | cons x xs ih =>
    intro r h
    rw [List.cons_append, List.dropWhile_cons,
      if_pos (h x (List.mem_cons_self x xs))]
    exact ih r (fun c hc => h c (List.mem_cons_of_mem x hc))

theorem areaCodeExcScanGo_succ (start p e : List Char) (fuel : Nat) :
    areaCodeExcScanGo start p e (fuel + 1) =
      (if headChar p ≠ headChar e then
        if headChar e = nulChar ∨ headChar e = ',' then
          some (start.length - p.length)
        else
          match e.dropWhile (fun c => ¬ (c = ',')) with
          | [] => none
          | _ :: rest => areaCodeExcScanGo start start rest fuel
      else
        match e with
        | [] => some (start.length - p.length)
        | _ :: etail => areaCodeExcScanGo start p.tail etail fuel) := rfl

theorem areaCodeExcScanGo_irrel (start : List Char) : ∀ (f1 : Nat)
    (p e : List Char) (f2 : Nat), e.length < f1 → e.length < f2 →
    areaCodeExcScanGo start p e f1 = areaCodeExcScanGo start p e f2 := by
  intro f1
  induction f1 with
  | zero =>
    intro p e f2 h1 h2
    omega
  | succ f1' ih =>
    intro p e f2 h1 h2
    cases f2 with
    | zero => omega
    | succ f2' =>
      rw [areaCodeExcScanGo_succ, areaCodeExcScanGo_succ]
      by_cases hne : headChar p ≠ headChar e
      · rw [if_pos hne, if_pos hne]
        by_cases hterm : headChar e = nulChar ∨ headChar e = ','
        · rw [if_pos hterm, if_pos hterm]
        · rw [if_neg hterm, if_neg hterm]
          cases hdrop : e.dropWhile (fun c => ¬ (c = ',')) with
          | nil => rfl
          | cons x rest =>
            have hle : (e.dropWhile (fun c => ¬ (c = ','))).length ≤ e.length :=
              (List.dropWhile_suffix _).length_le
            rw [hdrop] at hle
            simp only [List.length_cons] at hle
            exact ih start rest f2' (by omega) (by omega)
      · rw [if_neg hne, if_neg hne]
        cases e with
        | nil => rfl
        | cons x etail =>
          simp only [List.length_cons] at h1 h2
          exact ih p.tail etail f2' (by omega) (by omega)

theorem areaCodeExcScan_unfold (start p e : List Char) :
    areaCodeExcScan start p e =
      (if headChar p ≠ headChar e then
        if headChar e = nulChar ∨ headChar e = ',' then
          some (start.length - p.length)
        else
          match e.dropWhile (fun c => ¬ (c = ',')) with
          | [] => none
          | _ :: rest => areaCodeExcScan start start rest
      else
        match e with
        | [] => some (start.length - p.length)
        | _ :: etail => areaCodeExcScan start p.tail etail) := by
  unfold areaCodeExcScan
  conv_lhs => rw [areaCodeExcScanGo_succ]
  by_cases hne : headChar p ≠ headChar e
  · rw [if_pos hne, if_pos hne]
    by_cases hterm : headChar e = nulChar ∨ headChar e = ','
    · rw [if_pos hterm, if_pos hterm]
    · rw [if_neg hterm, if_neg hterm]
      cases hdrop : e.dropWhile (fun c => ¬ (c = ',')) with
      | nil => rfl
      | cons x rest =>
        have hle : (e.dropWhile (fun c => ¬ (c = ','))).length ≤ e.length :=
          (List.dropWhile_suffix _).length_le
        rw [hdrop] at hle
        simp only [List.length_cons] at hle
        exact areaCodeExcScanGo_irrel start e.length start rest
          (rest.length + 1) (by omega) (by omega)
  · rw [if_neg hne, if_neg hne]
    cases e with
    | nil => rfl
    | cons x etail => rfl

theorem commaPieces_cons (c : Char) (rest : List Char) :
    commaPieces (c :: rest) =
      (if c = ',' then [] :: commaPieces rest
       else
         match commaPieces rest with
         | [] => [[c]]
         | p :: ps => (c :: p) :: ps) := rfl

theorem commaPieces_no_comma (pc : List Char) (h : ∀ c ∈ pc, ¬ (c = ',')) :
    commaPieces pc = [pc] := by
  induction pc with
  | nil => rfl
  | cons c rest ih =>
    rw [commaPieces_cons, if_neg (h c (List.mem_cons_self c rest))]
    rw [ih (fun x hx => h x (List.mem_cons_of_mem c hx))]

theorem commaPieces_append (pc rest : List Char) (h : ∀ c ∈ pc, ¬ (c = ',')) :
    commaPieces (pc ++ ',' :: rest) = pc :: commaPieces rest := by
  induction pc with
  | nil =>
    rw [List.nil_append, commaPieces_cons, if_pos rfl]
  | cons c pcr ih =>
    rw [List.cons_append, commaPieces_cons,
      if_neg (h c (List.mem_cons_self c pcr))]
    rw [ih (fun x hx => h x (List.mem_cons_of_mem c hx))]

theorem isPrefixOf_nil_left (p : List Char) :
    List.isPrefixOf ([] : List Char) p = true := by
  cases p <;> rfl

theorem isPrefixOf_cons_nil (c : Char) (pc : List Char) :
    List.isPrefixOf (c :: pc) ([] : List Char) = false := rfl

theorem isPrefixOf_cons_cons (c d : Char) (pc p : List Char) :
    List.isPrefixOf (c :: pc) (d :: p) = (c == d && pc.isPrefixOf p) := rfl

theorem areaCodeExcScan_piece (start : List Char) : ∀ (pc restCS p : List Char),
    (∀ c ∈ pc, isdigitChar c = true) →
    (restCS = [] ∨ ∃ es', restCS = ',' :: es') →
    p.length ≤ start.length →
    (∀ c ∈ p, isdigitChar c = true) →
    areaCodeExcScan start p (pc ++ restCS) =
      (if pc.isPrefixOf p then some (start.length - p.length + pc.length)
       else
         match restCS with
         | [] => none
         | _ :: es' => areaCodeExcScan start start es') := by
  intro pc
  induction pc with
  | nil =>
    intro restCS p hpc hrest hplen hp
    rw [List.nil_append, areaCodeExcScan_unfold,
      if_pos (isPrefixOf_nil_left p)]
    simp only [List.length_nil, Nat.add_zero]
    rcases hrest with hnil | ⟨es', hcons⟩
    · subst hnil
      cases p with
      | nil =>
        rw [if_neg (by simp [headChar])]
      | cons d p' =>
        have hd := hp d (List.mem_cons_self d p')
        rw [if_pos (by
            simp only [headChar, ne_eq]
            exact digit_ne_nul d hd),
          if_pos (by left; rfl)]
    · subst hcons
      cases p with
      | nil =>
        rw [if_pos (by simp only [headChar, ne_eq]; decide),
          if_pos (by right; rfl)]
      | cons d p' =>
        have hd := hp d (List.mem_cons_self d p')
        rw [if_pos (by
            simp only [headChar, ne_eq]
            exact digit_ne_comma d hd),
          if_pos (by right; rfl)]
  | cons c pc' ih =>
    intro restCS p hpc hrest hplen hp
    have hc := hpc c (List.mem_cons_self c pc')
    have hcnul := digit_ne_nul c hc
    have hccomma := digit_ne_comma c hc
    have hpc' : ∀ x ∈ pc', isdigitChar x = true :=
      fun x hx => hpc x (List.mem_cons_of_mem c hx)
    have hdropAll : (c :: pc' ++ restCS).dropWhile (fun x => ¬ (x = ',')) =
        restCS.dropWhile (fun x => ¬ (x = ',')) := by
      have : (c :: pc') ++ restCS = c :: pc' ++ restCS := rfl
      rw [← this]
      apply dropWhile_append_all
      intro x hx
      simp only [decide_eq_true_eq]
      rcases List.mem_cons.mp hx with hxc | hxm
      · subst hxc
        exact hccomma
      · exact digit_ne_comma x (hpc' x hxm)
    have hdropRest : restCS.dropWhile (fun x => ¬ (x = ',')) = restCS := by
      rcases hrest with hnil | ⟨es', hcons⟩
      · subst hnil
        rfl
      · subst hcons
        rw [List.dropWhile_cons, if_neg (by simp)]
    cases p with
    | nil =>
      rw [areaCodeExcScan_unfold]
      rw [if_pos (by
        simp only [headChar, ne_eq]
        intro h
        exact hcnul h.symm)]
      rw [if_neg (by
        simp only [headChar]
        rintro (h | h)
        · exact hcnul h
        · exact hccomma h)]
      rw [hdropAll, hdropRest, isPrefixOf_cons_nil]
      simp only [Bool.false_eq_true, if_false]
    | cons d p' =>
      have hd := hp d (List.mem_cons_self d p')
      have hp' : ∀ x ∈ p', isdigitChar x = true :=
        fun x hx => hp x (List.mem_cons_of_mem d hx)
      by_cases hdc : d = c
      · subst hdc
        rw [areaCodeExcScan_unfold]
        rw [if_neg (by simp [headChar])]
        show areaCodeExcScan start (d :: p').tail (pc' ++ restCS) = _
        simp only [List.tail_cons]
        have hstep := ih restCS p' hpc' hrest
          (by simp only [List.length_cons] at hplen; omega) hp'
        rw [hstep]
        rw [isPrefixOf_cons_cons]
        simp only [beq_self_eq_true, Bool.true_and]
        by_cases hpfx : pc'.isPrefixOf p' = true
        · rw [if_pos hpfx, if_pos hpfx]
          simp only [Option.some.injEq, List.length_cons]
          simp only [List.length_cons] at hplen
          omega
        · rw [if_neg hpfx, if_neg hpfx]
      · rw [areaCodeExcScan_unfold]
        rw [if_pos (by
          simp only [headChar, ne_eq]
          exact hdc)]
        rw [if_neg (by
          simp only [headChar]
          rintro (h | h)
          · exact hcnul h
          · exact hccomma h)]
        rw [hdropAll, hdropRest, isPrefixOf_cons_cons]
        have hbeq : (c == d) = false := by
          simp only [beq_eq_false_iff_ne, ne_eq]
          intro h
          exact hdc h.symm
        rw [hbeq]
        simp only [Bool.false_and, Bool.false_eq_true, if_false]

theorem dropWhile_head_comma : ∀ (l : List Char) (x : Char) (xs : List Char),
    l.dropWhile (fun c => ¬ (c = ',')) = x :: xs → x = ',' := by
  intro l
  induction l with
  | nil =>
    intro x xs h
    cases h
  | cons c cs ih =>
    intro x xs h
    rw [List.dropWhile_cons] at h
    by_cases hc : c = ','
    · rw [if_neg (by simp [hc])] at h
      injection h with h1 h2
      rw [← h1]
      exact hc
    · rw [if_pos (by simp [hc])] at h
      exact ih x xs h

theorem areaCodeExcScan_eq_firstMatch (start : List Char)
    (hstart : ∀ c ∈ start, isdigitChar c = true) :
    ∀ (n : Nat) (es : List Char), es.length ≤ n →
      (∀ c ∈ es, c = ',' ∨ isdigitChar c = true) →
      areaCodeExcScan start start es =
        ((commaPieces es).find? (fun pc => pc.isPrefixOf start)).map
          List.length := by
  intro n
  induction n with
  | zero =>
    intro es hlen hes
    have hnil : es = [] := List.eq_nil_of_length_eq_zero (by omega)
    subst hnil
    have hscan : areaCodeExcScan start start [] =
        some (start.length - start.length) := by
      rw [areaCodeExcScan_unfold]
      cases start with
      | nil => rw [if_neg (by simp [headChar])]
      | cons d rest =>
        rw [if_pos (by
            simp only [headChar, ne_eq]
            exact digit_ne_nul d (hstart d (List.mem_cons_self d rest))),
          if_pos (by left; rfl)]
    rw [hscan]
    have hfind : (commaPieces []).find? (fun pc => pc.isPrefixOf start) =
        some [] := by
      show List.find? _ [[]] = some []
      rw [List.find?_cons]
      simp [isPrefixOf_nil_left]
    rw [hfind]
    simp
  | succ n' ih =>
    intro es hlen hes
    have hsplit : es.takeWhile (fun c => ¬ (c = ',')) ++
        es.dropWhile (fun c => ¬ (c = ',')) = es :=
      List.takeWhile_append_dropWhile _ _
    have hpcdig : ∀ c ∈ es.takeWhile (fun c => ¬ (c = ',')),
        isdigitChar c = true := by
      intro c hc
      have hmem : c ∈ es := (List.takeWhile_prefix _).subset hc
      have hpred := List.mem_takeWhile_imp hc
      simp only [decide_eq_true_eq] at hpred
      rcases hes c hmem with h | h
      · exact absurd h hpred
      · exact h
    cases hrest : es.dropWhile (fun c => ¬ (c = ',')) with
    | nil =>
      have hes_eq : es.takeWhile (fun c => ¬ (c = ',')) = es := by
        conv_rhs => rw [← hsplit]
        rw [hrest, List.append_nil]
      have hpiece := areaCodeExcScan_piece start
        (es.takeWhile (fun c => ¬ (c = ','))) [] start hpcdig (Or.inl rfl)
        (le_refl _) hstart
      rw [List.append_nil, hes_eq] at hpiece
      rw [hpiece]
      have hnc : ∀ c ∈ es.takeWhile (fun c => ¬ (c = ',')), ¬ (c = ',') :=
        fun c hc => by simpa using List.mem_takeWhile_imp hc
      have hcp : commaPieces es = [es] := by
        conv_lhs => rw [← hes_eq]
        rw [commaPieces_no_comma _ hnc, hes_eq]
      rw [hcp]
      rw [List.find?_cons]
      by_cases hpfx : es.isPrefixOf start = true
      · rw [hpfx]
        simp
      · rw [Bool.not_eq_true] at hpfx
        rw [hpfx]
        simp
    | cons x es' =>
      have hx : x = ',' := dropWhile_head_comma es x es' hrest
      subst hx
      have hes_eq : es.takeWhile (fun c => ¬ (c = ',')) ++ ',' :: es' = es := by
        conv_rhs => rw [← hsplit]
        rw [hrest]
      have hpiece := areaCodeExcScan_piece start
        (es.takeWhile (fun c => ¬ (c = ','))) (',' :: es') start hpcdig
        (Or.inr ⟨es', rfl⟩) (le_refl _) hstart
      rw [hes_eq] at hpiece
      rw [hpiece]
      have hlen' : es'.length ≤ n' := by
        have := congrArg List.length hes_eq
        simp only [List.length_append, List.length_cons] at this
        omega
      have hes' : ∀ c ∈ es', c = ',' ∨ isdigitChar c = true := by
        intro c hc
        apply hes c
        rw [← hes_eq]
        exact List.mem_append_right _ (List.mem_cons_of_mem ',' hc)
      have hnc : ∀ c ∈ es.takeWhile (fun c => ¬ (c = ',')), ¬ (c = ',') :=
        fun c hc => by simpa using List.mem_takeWhile_imp hc
      have hcp : commaPieces es =
          es.takeWhile (fun c => ¬ (c = ',')) :: commaPieces es' := by
        conv_lhs => rw [← hes_eq]
        exact commaPieces_append _ _ hnc
      rw [hcp, List.find?_cons]
      by_cases hpfx : (es.takeWhile (fun c => ¬ (c = ','))).isPrefixOf start = true
      · rw [hpfx]
        simp
      · rw [Bool.not_eq_true] at hpfx
        rw [hpfx]
        simp only [Bool.false_eq_true, if_false]
        exact ih es' hlen' hes'

theorem digitChar_isdigit (x : Nat) (hx : x ≤ 9) :
    isdigitChar (Char.ofNat ('0'.toNat + x)) = true := by
  interval_cases x <;> decide

theorem decCharsGo_zero (n : Nat) (acc : List Char) :
    decCharsGo 0 n acc = Char.ofNat ('0'.toNat + n % 10) :: acc := rfl

theorem decCharsGo_succ' (f n : Nat) (acc : List Char) :
    decCharsGo (f + 1) n acc =
      (if n < 10 then Char.ofNat ('0'.toNat + n) :: acc
       else decCharsGo f (n / 10) (Char.ofNat ('0'.toNat + n % 10) :: acc)) :=
  rfl

theorem decCharsGo_digits : ∀ (f n : Nat) (acc : List Char),
    (∀ c ∈ acc, isdigitChar c = true) →
    ∀ c ∈ decCharsGo f n acc, isdigitChar c = true := by
  intro f
  induction f with
  | zero =>
    intro n acc hacc c hc
    rw [decCharsGo_zero] at hc
    rcases List.mem_cons.mp hc with h | h
    · subst h
      exact digitChar_isdigit _ (by omega)
    · exact hacc c h
  | succ f' ih =>
    intro n acc hacc c hc
    rw [decCharsGo_succ'] at hc
    by_cases h10 : n < 10
    · rw [if_pos h10] at hc
      rcases List.mem_cons.mp hc with h | h
      · subst h
        exact digitChar_isdigit _ (by omega)
      · exact hacc c h
    · rw [if_neg h10] at hc
      exact ih (n / 10) _ (by
        intro x hx
        rcases List.mem_cons.mp hx with h | h
        · subst h
          exact digitChar_isdigit _ (by omega)
        · exact hacc x h) c hc

theorem decChars_digits (n : Nat) : ∀ c ∈ decChars n, isdigitChar c = true :=
  decCharsGo_digits n n [] (by simp)

/-- C7 counterexample: with exceptions "1,12" (default length 3) on
calling code 61, the subscriber substring of 61125551234 after the
2-digit calling code is "125551234"; the longest matching exception is
"12" (length 2), but the scan returns the first exception in list order
that matches, "1" (length 1). -/
theorem C7_counterexample :
    parseE164AreaCodesFormat ("+61:xxx,1,12".toList) =
      some (some ⟨[⟨61, 3, some ("1,12".toList)⟩]⟩) ∧
    e164AreaCodeLengthOf (some ⟨[⟨61, 3, some ("1,12".toList)⟩]⟩)
      61125551234 61 2 = some 1 ∧
    longestExceptionPrefixLength ("1,12".toList) ("125551234".toList) 3 = 2 := by
  decide

/-- C7 amended: when the rule for the calling code carries an exceptions
list, the resolver returns the digit length of the FIRST exception, in
list order, that is an exact textual prefix of the subscriber substring
following the calling-code digits, and the rule's default length when no
exception matches; in particular, with exceptions 11,12,13 and default
length 1 on calling code 61, resolving 61115551234 gives area-code
length 2 and resolving 61455551234 gives length 1 (the number is passed
as its raw digit value, as the spec's formatting routine — not under
src/ — supplies it). -/
theorem C7_first_exception_prefix (currentCodesInfo : Option E164AreaCodesInfo)
    (info : E164AreaCodesInfo) (aNumber cc ccLen : Nat)
    (format : E164AreaCodesFormat) (exceptionsList : List Char)
    (hcc : cc ≤ 999)
    (hsupp : e164TypeSupportsAreaCode (e164TypeFor.getD cc E164Type.Invalid) =
      true)
    (hcur : currentCodesInfo = some info)
    (hfind : info.formats.find? (fun f => f.countryCode = cc) = some format)
    (hexc : format.exceptionsList = some exceptionsList)
    (hes : ∀ c ∈ exceptionsList, c = ',' ∨ isdigitChar c = true) :
    e164AreaCodeLengthOf currentCodesInfo aNumber cc ccLen =
      some (firstExceptionPrefixLength exceptionsList
        (((decChars aNumber).take E164MaximumNumberOfDigits).drop ccLen)
        format.defaultAreaCodeLength) ∧
    (parseE164AreaCodesFormat ("+61:x,11,12,13".toList)).map (fun tbl =>
      e164AreaCodeLengthOf tbl 61115551234 61 2) = some (some 2) ∧
    (parseE164AreaCodesFormat ("+61:x,11,12,13".toList)).map (fun tbl =>
      e164AreaCodeLengthOf tbl 61455551234 61 2) = some (some 1) := by
  refine ⟨?_, by decide, by decide⟩
  have hsup : e164CountryCodeSupportsAreaCode cc =
      some (e164TypeSupportsAreaCode (e164TypeFor.getD cc E164Type.Invalid)) := by
    unfold e164CountryCodeSupportsAreaCode
    rw [e164TypeForCountryCode_le_999 cc hcc]
    rfl
  unfold e164AreaCodeLengthOf
  rw [hsup, hsupp, hcur]
  simp only [Option.bind_eq_bind, Option.some_bind]
  rw [hfind]
  dsimp only
  rw [hexc]
  dsimp only
  have hsubdig : ∀ c ∈ ((decChars aNumber).take E164MaximumNumberOfDigits).drop
      ccLen, isdigitChar c = true := by
    intro c hc
    exact decChars_digits aNumber c
      (List.take_subset _ _ (List.drop_subset _ _ hc))
  rw [areaCodeExcScan_eq_firstMatch
    (((decChars aNumber).take E164MaximumNumberOfDigits).drop ccLen) hsubdig
    exceptionsList.length exceptionsList (le_refl _) hes]
  unfold firstExceptionPrefixLength
  cases hfindpc : (commaPieces exceptionsList).find? (fun pc =>
      pc.isPrefixOf (((decChars aNumber).take E164MaximumNumberOfDigits).drop
        ccLen)) with
  | none => rfl
  | some pc => rfl

theorem C7_first_exception_prefix_witness :
    e164AreaCodeLengthOf (some ⟨[⟨61, 1, some ("11,12,13".toList)⟩]⟩)
        61115551234 61 2 =
      some (firstExceptionPrefixLength ("11,12,13".toList)
        (((decChars 61115551234).take E164MaximumNumberOfDigits).drop 2) 1) ∧
    (parseE164AreaCodesFormat ("+61:x,11,12,13".toList)).map (fun tbl =>
      e164AreaCodeLengthOf tbl 61115551234 61 2) = some (some 2) ∧
    (parseE164AreaCodesFormat ("+61:x,11,12,13".toList)).map (fun tbl =>
      e164AreaCodeLengthOf tbl 61455551234 61 2) = some (some 1) :=
  C7_first_exception_prefix (some ⟨[⟨61, 1, some ("11,12,13".toList)⟩]⟩)
    ⟨[⟨61, 1, some ("11,12,13".toList)⟩]⟩ 61115551234 61 2
    ⟨61, 1, some ("11,12,13".toList)⟩ ("11,12,13".toList)
    (by decide) (by decide) rfl (by decide) rfl (by decide)

/-- C9: compiling the empty area-code format string succeeds and yields
the empty (NULL) table, not an error; and whenever compilation of a
format string fails, the configuration-change flow leaves the currently
installed table entirely unchanged (no partial table is published). -/
theorem C9_empty_ok_and_failure_preserves_table :
    parseE164AreaCodesFormat [] = some none ∧
    (∀ (aFormat : List Char) (current : Option E164AreaCodesInfo),
      parseE164AreaCodesFormat aFormat = none →
      configureAreaCodes aFormat current = (current, false)) := by
  constructor
  · rfl
  · intro aFormat current h
    unfold configureAreaCodes
    rw [h]

theorem C9_empty_ok_and_failure_preserves_table_witness :
    configureAreaCodes ("+61:x,11,".toList)
        (some ⟨[⟨1, 3, none⟩]⟩) = (some ⟨[⟨1, 3, none⟩]⟩, false) :=
  C9_empty_ok_and_failure_preserves_table.2 ("+61:x,11,".toList)
    (some ⟨[⟨1, 3, none⟩]⟩) (by decide)
